import Mathlib

/-!
Verification of the launchbyte-api backend (FastAPI + SQLAlchemy web service)
against its natural-language specification.

The Python sources are shallowly embedded: pure helpers become Lean
functions on `String` / `List`, database tables become `List` values of
record types holding the columns the verified code reads or writes, the
in-memory session dictionary becomes an association list, and raised
`HTTPException`s become `Except` errors.  External libraries (bcrypt,
python-jose, hashlib, PIL, the MySQL driver) are modelled by explicit
function parameters or by small symbolic models, as noted at each
definition.  Wall-clock time (`datetime.utcnow`) is threaded as an
explicit `now : Nat` counted in seconds.
-/

set_option autoImplicit false

namespace LaunchByte

deriving instance DecidableEq for Except

/-! ## Python primitives -/

/-- Decimal digits of `n`, least significant first, via structural fuel
(`fuel ≥ n` suffices); models the digit loop behind Python `str(int)`. -/
def toDigitsRevFuel : Nat → Nat → List Nat
  | 0, _ => []
  | fuel + 1, n => if n = 0 then [] else n % 10 :: toDigitsRevFuel fuel (n / 10)

/-- Decimal digits of `n`, least significant first (empty for 0). -/
def decimalDigitsRev (n : Nat) : List Nat := toDigitsRevFuel n n

/-- One decimal digit as a character. -/
def digitChar : Nat → Char
  | 0 => '0' | 1 => '1' | 2 => '2' | 3 => '3' | 4 => '4'
  | 5 => '5' | 6 => '6' | 7 => '7' | 8 => '8' | 9 => '9'
  | _ => '*'

/-- Inverse of `digitChar` on decimal digits. -/
def charDigit : Char → Nat
  | '0' => 0 | '1' => 1 | '2' => 2 | '3' => 3 | '4' => 4
  | '5' => 5 | '6' => 6 | '7' => 7 | '8' => 8 | '9' => 9
  | _ => 10

/-- Model of Python `str` on a non-negative integer: its decimal numeral. -/
def pyStr (n : Nat) : String :=
  if n = 0 then "0" else String.mk ((decimalDigitsRev n).reverse.map digitChar)

/-- Python truthiness of an optional integer: `None` and `0` are falsy. -/
def pyTruthyOptNat : Option Nat → Bool
  | none => false
  | some i => i != 0

/-- Python truthiness of an optional string: `None` and `""` are falsy. -/
def pyTruthyOptStr : Option String → Bool
  | none => false
  | some s => s != ""

/-! ## utils.slugify (src/utils.py lines 428-462) -/

/-- `unicodedata.normalize('NFKD', text)`.  On the inputs this development
evaluates (ASCII and precomposed Cyrillic letters) NFKD normalisation is the
identity; the full Unicode decomposition tables are outside the scope of this
embedding. -/
def nfkd (s : String) : String := s

/-- Lowercase counterparts of the uppercase Cyrillic letters that appear
(in lowercase) in the transliteration table of `slugify`. -/
def cyrLowerTable : List (Char × Char) :=
  [('А', 'а'), ('Б', 'б'), ('В', 'в'), ('Г', 'г'), ('Ґ', 'ґ'), ('Д', 'д'),
   ('Е', 'е'), ('Є', 'є'), ('Ё', 'ё'), ('Ж', 'ж'), ('З', 'з'), ('И', 'и'),
   ('І', 'і'), ('Ї', 'ї'), ('Й', 'й'), ('К', 'к'), ('Л', 'л'), ('М', 'м'),
   ('Н', 'н'), ('О', 'о'), ('П', 'п'), ('Р', 'р'), ('С', 'с'), ('Т', 'т'),
   ('У', 'у'), ('Ф', 'ф'), ('Х', 'х'), ('Ц', 'ц'), ('Ч', 'ч'), ('Ш', 'ш'),
   ('Щ', 'щ'), ('Ъ', 'ъ'), ('Ы', 'ы'), ('Ь', 'ь'), ('Э', 'э'), ('Ю', 'ю'),
   ('Я', 'я')]

/-- Model of Python `str.lower` on one character, covering ASCII and the
Cyrillic alphabet used by `slugify`. -/
def pyLower (c : Char) : Char :=
  if 'A' ≤ c ∧ c ≤ 'Z' then Char.ofNat (c.toNat + 32)
  else match cyrLowerTable.lookup c with
       | some l => l
       | none => c

/-- Model of Python `str.isspace` membership for `str.strip` and `\s`. -/
def isPySpace (c : Char) : Bool :=
  c = ' ' ∨ c = '\t' ∨ c = '\n' ∨ c = '\r' ∨ c = '\x0b' ∨ c = '\x0c'

/-- Model of the regex class `\w` (word character) on the post-transliteration
alphabet handled here: ASCII letters, digits and underscore. -/
def pyIsWord (c : Char) : Bool :=
  ('a' ≤ c ∧ c ≤ 'z') ∨ ('A' ≤ c ∧ c ≤ 'Z') ∨ ('0' ≤ c ∧ c ≤ '9') ∨ c = '_'

/-- The `cyrillic_translit` dictionary of `slugify`, as a map from one
character to its Latin replacement.  The sequence of `text.replace` calls in
the source equals one character-wise pass because every key is a single
Cyrillic character and every value is Latin-only, so no replacement creates a
later key. -/
def translitChar (c : Char) : List Char :=
  match c with
  | 'а' => ['a'] | 'б' => ['b'] | 'в' => ['v'] | 'г' => ['g'] | 'ґ' => ['g']
  | 'д' => ['d'] | 'е' => ['e'] | 'є' => ['y', 'e'] | 'ё' => ['y', 'o']
  | 'ж' => ['z', 'h'] | 'з' => ['z'] | 'и' => ['i'] | 'і' => ['i']
  | 'ї' => ['y', 'i'] | 'й' => ['y'] | 'к' => ['k'] | 'л' => ['l']
  | 'м' => ['m'] | 'н' => ['n'] | 'о' => ['o'] | 'п' => ['p'] | 'р' => ['r']
  | 'с' => ['s'] | 'т' => ['t'] | 'у' => ['u'] | 'ф' => ['f'] | 'х' => ['h']
  | 'ц' => ['t', 's'] | 'ч' => ['c', 'h'] | 'ш' => ['s', 'h']
  | 'щ' => ['s', 'c', 'h'] | 'ъ' => [] | 'ы' => ['y'] | 'ь' => []
  | 'э' => ['e'] | 'ю' => ['y', 'u'] | 'я' => ['y', 'a']
  | _ => [c]

/-- `re.sub(r'[-\s]+', '-', text)`: collapse every run of hyphens and
whitespace into a single hyphen.  The boolean accumulator records whether the
previous character belonged to the current run. -/
def collapseDashRuns : Bool → List Char → List Char
  | _, [] => []
  | inRun, c :: cs =>
      if isPySpace c ∨ c = '-' then
        if inRun then collapseDashRuns true cs
        else '-' :: collapseDashRuns true cs
      else c :: collapseDashRuns false cs

/-- `utils.slugify`: builds a URL slug from a title, with Cyrillic
transliteration, punctuation removal, hyphen collapsing, a 50-character limit
and the fallback `"item"`. -/
def slugify (text : String) : String :=
  if text = "" then ""
  else
    let t0 := (nfkd text).data.map pyLower
    let t1 := (t0.dropWhile isPySpace).reverse.dropWhile isPySpace |>.reverse
    let t2 := t1.flatMap translitChar
    let t3 := t2.filter (fun c => pyIsWord c ∨ isPySpace c ∨ c = '-')
    let t4 := collapseDashRuns false t3
    let t5 := (t4.dropWhile (· = '-')).reverse.dropWhile (· = '-') |>.reverse
    let t6 := if t5.length > 50 then (t5.take 50).reverse.dropWhile (· = '-') |>.reverse else t5
    if t6.isEmpty then "item" else String.mk t6

/-! ## routes.generate_slug (src/routes.py lines 33-48) -/

/-- A row of a slug-bearing table (`models.Design` / `models.Package`),
restricted to the two columns `generate_slug` queries. -/
structure SlugRow where
  id : Nat
  slug : String
deriving Repr, DecidableEq

/-- The row filter of the uniqueness query: `slug == slug` plus, when
`id_to_exclude` is truthy (Python `if id_to_exclude:` is false for `None`
and `0`), `id != id_to_exclude`. -/
def excludeFilter (id_to_exclude : Option Nat) (r : SlugRow) : Bool :=
  if pyTruthyOptNat id_to_exclude then r.id != id_to_exclude.getD 0 else true

/-- `query.first()` is non-`None`: some row (other than the excluded id)
already uses `slug`. -/
def slugTaken (rows : List SlugRow) (id_to_exclude : Option Nat) (slug : String) : Bool :=
  rows.any (fun r => r.slug == slug && excludeFilter id_to_exclude r)

/-- The candidate slug checked at iteration `k` of the `while True` loop of
`generate_slug`: the base slug itself for `k = 0`, and `base ++ "-" ++ str k`
afterwards (the loop variable `counter` equals `k + 1`). -/
def slugCandidate (base : String) : Nat → String
  | 0 => base
  | k + 1 => base ++ "-" ++ pyStr (k + 1)

/-- The `while True` loop of `generate_slug`, written with explicit fuel:
at each step it tests the candidate with index `c` and moves on to `c + 1`.
`generate_slug_total` proves that `rows.length + 1` units of fuel always
reach a free slug, so the fuel never runs out on the call below. -/
def generate_slug_loop (rows : List SlugRow) (id_to_exclude : Option Nat)
    (base : String) : Nat → Nat → Option String
  | _, 0 => none
  | c, fuel + 1 =>
      if slugTaken rows id_to_exclude (slugCandidate base c) then
        generate_slug_loop rows id_to_exclude base (c + 1) fuel
      else some (slugCandidate base c)

/-- `routes.generate_slug`: returns the first candidate slug not used by any
row of the table (excluding `id_to_exclude`). -/
def generate_slug (title : String) (rows : List SlugRow)
    (id_to_exclude : Option Nat := none) : Option String :=
  generate_slug_loop rows id_to_exclude (slugify title) 0 (rows.length + 1)

/-! ## routes.create_design (src/routes.py lines 349-378) -/

/-- A raised `fastapi.HTTPException`: status code plus detail message. -/
structure HttpError where
  status : Nat
  detail : String
deriving Repr, DecidableEq

/-- A `models.DesignCategory` row, restricted to the primary key column
that `create_design` queries. -/
structure DesignCategory where
  id : String
deriving Repr, DecidableEq

/-- The fields of `schemas.DesignCreate` that `create_design` reads
explicitly (the remaining payload fields are copied into the row unchanged
and are irrelevant to the verified properties). -/
structure DesignCreate where
  title : String
  category_id : String
deriving Repr, DecidableEq

/-- A `models.Design` row, restricted to the columns involved in slug
generation and the uniqueness constraint (`slug` is declared `unique=True`
in src/models.py line 139). -/
structure Design where
  id : Nat
  title : String
  slug : String
  category_id : String
deriving Repr, DecidableEq

/-- The projection of the `designs` table that the uniqueness query of
`generate_slug` reads. -/
def designSlugRows (designs : List Design) : List SlugRow :=
  designs.map (fun d => ⟨d.id, d.slug⟩)

/-- `db.commit()` for a freshly added design: the UNIQUE constraint on
`designs.slug` makes the insert fail when another row already holds the same
slug, and append the row otherwise.  `newId` models the auto-increment key. -/
def insertDesign (designs : List Design) (d : Design) : Except HttpError (List Design) :=
  if designs.any (fun e => e.slug == d.slug) then
    .error ⟨500, "IntegrityError: duplicate entry for key designs.slug"⟩
  else .ok (designs ++ [d])

/-- `routes.create_design`, the handler body (its admin dependency
`get_current_admin_user` is resolved upstream and only feeds the log line):
validate the category, generate a unique slug, store the design.
The unreachable 500 branch covers fuel exhaustion of `generate_slug`,
which `generate_slug_spec` rules out. -/
def create_design (data : DesignCreate) (categories : List DesignCategory)
    (designs : List Design) (newId : Nat) : Except HttpError (Design × List Design) := do
  if (categories.find? (fun c => c.id == data.category_id)).isNone then
    throw ⟨400, "Category not found"⟩
  match generate_slug data.title (designSlugRows designs) none with
  | none => throw ⟨500, "slug generation did not terminate"⟩
  | some slug =>
      let d : Design := ⟨newId, data.title, slug, data.category_id⟩
      let designs2 ← insertDesign designs d
      pure (d, designs2)

/-! ## Data model: users (src/models.py lines 56-73, columns read by auth) -/

/-- A `models.User` row, restricted to the columns the verified auth code
reads or writes. -/
structure User where
  id : Nat
  email : String
  name : String
  hashed_password : String
  is_admin : Bool
  is_active : Bool
  last_login : Option Nat
  updated_at : Option Nat
deriving Repr, DecidableEq

/-- Update the first element satisfying `p` (the row returned by
`query.filter(...).first()`, mutated in place and committed). -/
def updateFirst {α : Type} (p : α → Bool) (f : α → α) : List α → List α
  | [] => []
  | x :: xs => if p x then f x :: xs else x :: updateFirst p f xs

/-- Python `str.lower` on a whole string (character-wise). -/
def pyLowerStr (s : String) : String := String.mk (s.data.map pyLower)

/-- Python `str.strip()`: remove leading and trailing whitespace. -/
def pyStrip (s : String) : String :=
  String.mk ((s.data.dropWhile isPySpace).reverse.dropWhile isPySpace |>.reverse)

/-- `email.lower().strip()`, the normalisation applied before user lookup. -/
def pyNormEmail (s : String) : String := pyStrip (pyLowerStr s)

/-! ## JWT and session model (src/auth.py) -/

/-- The JWT claims read by the verified code (`sub`, `type`, `exp`, `jti`). -/
structure Payload where
  sub : Option String
  type : Option String
  exp : Option Nat
  jti : Option String
deriving Repr, DecidableEq

/-- Model of the `python-jose` library for the fixed application secret:
`decodeRaw` maps the compact token string to its claims when the signature
verifies (and to `none` on a malformed token or wrong signature), and is a
pure function of the string, since decoding is deterministic; the expiry
check that `jwt.decode` also performs is applied separately in `jwtDecode`.
`encode` models `jwt.encode` with the same secret. -/
structure TokenEnv where
  decodeRaw : String → Option Payload
  encode : Payload → String

/-- `jose.jwt.decode(token, settings.SECRET_KEY, algorithms=[ALGORITHM])` at
time `now`: fails on a bad signature and raises `ExpiredSignatureError`
(mapped to `none` by the caller) when the `exp` claim is in the past. -/
def jwtDecode (env : TokenEnv) (now : Nat) (token : String) : Option Payload :=
  match env.decodeRaw token with
  | none => none
  | some p => if pyTruthyOptNat p.exp ∧ p.exp.getD 0 < now then none else some p

/-- `auth.verify_token` (src/auth.py lines 99-125): decode, then check that
the token type is `access` or `refresh` and re-check expiry
(`if exp and utcfromtimestamp(exp) < utcnow()`, where `exp = 0` is falsy). -/
def verify_token (env : TokenEnv) (now : Nat) (token : String) : Option Payload :=
  match jwtDecode env now token with
  | none => none
  | some payload =>
      let token_type := payload.type.getD "access"
      if token_type ≠ "access" ∧ token_type ≠ "refresh" then none
      else if pyTruthyOptNat payload.exp ∧ payload.exp.getD 0 < now then none
      else some payload

/-- One value of the in-memory `user_sessions` dictionary (src/auth.py line
30); the isoformat timestamp string is modelled in epoch seconds. -/
structure SessionData where
  blacklisted : Bool
  reason : String
  timestamp : Nat
deriving Repr, DecidableEq

/-- The `user_sessions` dictionary, as an association list with the usual
dict semantics (`dictSet` overwrites in place, `List.lookup` finds the
entry). -/
def Sessions : Type := List (String × SessionData)

def dictSet (s : List (String × SessionData)) (k : String) (v : SessionData) :
    List (String × SessionData) :=
  match s with
  | [] => [(k, v)]
  | (k0, v0) :: rest => if k0 = k then (k, v) :: rest else (k0, v0) :: dictSet rest k v

/-- `payload.get("jti") or token[:32]` — Python `or` falls through on a
missing or empty `jti`. -/
def blacklistKey (token : String) (payload : Payload) : String :=
  if pyTruthyOptStr payload.jti then payload.jti.getD "" else token.take 32

/-- `auth.blacklist_token` (src/auth.py lines 128-140): record the token in
`user_sessions` if it verifies, else do nothing. -/
def blacklist_token (env : TokenEnv) (now : Nat) (token : String) (reason : String)
    (s : List (String × SessionData)) : List (String × SessionData) :=
  match verify_token env now token with
  | none => s
  | some payload => dictSet s (blacklistKey token payload) ⟨true, reason, now⟩

/-- `auth.is_token_blacklisted` (src/auth.py lines 143-150): a token that
does not verify counts as blacklisted; otherwise look up its entry
(defaulting to `False`). -/
def is_token_blacklisted (env : TokenEnv) (now : Nat)
    (s : List (String × SessionData)) (token : String) : Bool :=
  match verify_token env now token with
  | none => true
  | some payload =>
      match (s.lookup (blacklistKey token payload)) with
      | some sd => sd.blacklisted
      | none => false

/-- `auth.cleanup_expired_sessions` (src/auth.py lines 827-845): drop every
entry older than 7 days (604800 s); entries written by `blacklist_token`
always parse, so the malformed-timestamp branch never fires in-process. -/
def cleanup_expired_sessions (now : Nat) (s : List (String × SessionData)) :
    List (String × SessionData) :=
  s.filter (fun kv => !(decide (now - kv.2.timestamp > 604800)))

/-! ## Settings and cookie token resolution (src/config.py, src/auth.py) -/

/-- A raised Python exception that is not an `HTTPException`. -/
inductive PyErr where
  | attributeError (attr : String)
deriving Repr, DecidableEq

/-- The `settings.TOKEN_COOKIE_NAME` attribute access performed at
src/auth.py lines 160, 231 and 277.  The `Settings` class of src/config.py
defines no attribute of that name (and `Settings.configure` only updates
attributes that already exist), so the access raises `AttributeError`. -/
def settingsTokenCookieName : Except PyErr String :=
  .error (.attributeError "TOKEN_COOKIE_NAME")

/-- The request data read by token resolution. -/
structure Request where
  cookies : List (String × String)
deriving Repr, DecidableEq

/-- Strip a `"Bearer "` prefix if present (src/auth.py lines 286-291). -/
def stripBearer (s : String) : String :=
  if s.startsWith "Bearer " then s.drop 7 else s

/-- `auth.get_token_from_cookie_or_header` (src/auth.py lines 266-314):
main cookie, then `auth_token`, then legacy `access_token`, then the
`Authorization` header credentials.  The very first step reads
`settings.TOKEN_COOKIE_NAME`, which raises `AttributeError`; the remaining
branches mirror the source and are unreachable in-process. -/
def get_token_from_cookie_or_header (req : Request) (credentials : Option String) :
    Except PyErr (Option String) :=
  match settingsTokenCookieName with
  | .error e => .error e
  | .ok cookieName =>
      let main_token := req.cookies.lookup cookieName
      if pyTruthyOptStr main_token then .ok main_token
      else
        let bearer_token := req.cookies.lookup "auth_token"
        if pyTruthyOptStr bearer_token then .ok (some (stripBearer (bearer_token.getD "")))
        else
          let legacy_token := req.cookies.lookup "access_token"
          if pyTruthyOptStr legacy_token then .ok (some (stripBearer (legacy_token.getD "")))
          else
            if pyTruthyOptStr credentials then .ok credentials
            else .ok none

/-! ## Authentication and the current-user dependency chain (src/auth.py) -/

/-- An error surfaced by a handler: either a raised `HTTPException` or an
uncaught Python exception (which FastAPI answers with HTTP 500). -/
inductive ApiError where
  | http (e : HttpError)
  | py (e : PyErr)
deriving Repr, DecidableEq

/-- `auth.authenticate_user` (src/auth.py lines 317-338): look the user up
by normalised email, check the password with `pwd_context.verify` (bcrypt is
external; it is passed in as `vp`), and commit a `last_login` update.
Returns the authenticated user (if any) and the updated table. -/
def authenticate_user (vp : String → String → Bool) (now : Nat) (db : List User)
    (email password : String) : Option User × List User :=
  match db.find? (fun u => u.email == pyNormEmail email) with
  | none => (none, db)
  | some user =>
      if !(vp password user.hashed_password) then (none, db)
      else
        let user2 : User := { user with last_login := some now, updated_at := some now }
        (some user2, updateFirst (fun u => u.email == pyNormEmail email)
          (fun u => { u with last_login := some now, updated_at := some now }) db)

/-- `auth.create_access_token` (src/auth.py lines 57-77): encode the claims
with type `access` and expiry `now + expires_delta` seconds. -/
def create_access_token (env : TokenEnv) (now : Nat) (sub : String)
    (expires_delta : Nat) : String :=
  env.encode ⟨some sub, some "access", some (now + expires_delta), none⟩

/-- `auth.set_auth_cookie` (src/auth.py lines 153-222): its first statement
builds the main cookie configuration from `settings.TOKEN_COOKIE_NAME`, so
the call raises `AttributeError`; the cookie list it would set follows the
source and is dead code. -/
def set_auth_cookie (token : String) : Except PyErr (List (String × String)) :=
  match settingsTokenCookieName with
  | .error e => .error e
  | .ok cookieName =>
      .ok [(cookieName, token), ("auth_token", "Bearer " ++ token)]

/-- The successful response of `/auth/login` and `/auth/register`
(`schemas.Token`) together with the cookies set on the response. -/
structure LoginResult where
  access_token : String
  token_type : String
  expires_in : Nat
  user : User
  cookies_set : List (String × String)
deriving Repr, DecidableEq

/-- `routes.login` (src/routes.py lines 122-159): authenticate, reject
inactive accounts with 403 before any token or cookie is produced, then
issue the token and set the auth cookies (the latter raises
`AttributeError` in-process, see `set_auth_cookie`). -/
def login (env : TokenEnv) (vp : String → String → Bool) (now : Nat)
    (expireMinutes : Nat) (db : List User) (email password : String) :
    Except ApiError LoginResult × List User :=
  match authenticate_user vp now db email password with
  | (none, db2) => (.error (.http ⟨401, "Incorrect email or password"⟩), db2)
  | (some user, db2) =>
      if !user.is_active then (.error (.http ⟨403, "Account is deactivated"⟩), db2)
      else
        let db3 := updateFirst (fun u => u.email == user.email)
          (fun u => { u with last_login := some now, updated_at := some now }) db2
        let access_token := create_access_token env now user.email (expireMinutes * 60)
        match set_auth_cookie access_token with
        | .error e => (.error (.py e), db3)
        | .ok cookies =>
            (.ok ⟨access_token, "bearer", expireMinutes * 60, user, cookies⟩, db3)

/-- `auth.get_current_user` (src/auth.py lines 341-407): resolve the token
(raises `AttributeError` in-process), reject blacklisted and unverifiable
tokens, check claim `sub` and type `access`, look the user up, and reject
inactive accounts. -/
def get_current_user (env : TokenEnv) (now : Nat) (s : List (String × SessionData))
    (req : Request) (credentials : Option String) (db : List User) :
    Except ApiError User :=
  match get_token_from_cookie_or_header req credentials with
  | .error e => .error (.py e)
  | .ok none => .error (.http ⟨401, "Could not validate credentials"⟩)
  | .ok (some token) =>
      if is_token_blacklisted env now s token then
        .error (.http ⟨401, "Token has been revoked"⟩)
      else
        match verify_token env now token with
        | none => .error (.http ⟨401, "Could not validate credentials"⟩)
        | some payload =>
            match payload.sub with
            | none => .error (.http ⟨401, "Could not validate credentials"⟩)
            | some email =>
                if payload.type ≠ some "access" then
                  .error (.http ⟨401, "Invalid token type"⟩)
                else
                  match db.find? (fun u => u.email == email) with
                  | none => .error (.http ⟨401, "Could not validate credentials"⟩)
                  | some user =>
                      if !user.is_active then .error (.http ⟨403, "Inactive user account"⟩)
                      else .ok user

/-- `auth.get_current_active_user` (src/auth.py lines 410-418). -/
def get_current_active_user (user : User) : Except ApiError User :=
  if !user.is_active then .error (.http ⟨403, "Inactive user account"⟩)
  else .ok user

/-- `auth.get_current_admin_user` (src/auth.py lines 421-429). -/
def get_current_admin_user (user : User) : Except ApiError User :=
  if !user.is_admin then .error (.http ⟨403, "Administrator access required"⟩)
  else .ok user

/-- The dependency chain FastAPI resolves for an endpoint that depends on
`get_current_admin_user`: `get_current_user`, then the active check, then
the admin check. -/
def resolve_admin_user (env : TokenEnv) (now : Nat) (s : List (String × SessionData))
    (req : Request) (credentials : Option String) (db : List User) :
    Except ApiError User := do
  let u ← get_current_user env now s req credentials db
  let u2 ← get_current_active_user u
  get_current_admin_user u2

/-! ## Session operation traces (for the blacklist lifetime claims) -/

/-- The operations that mutate the `user_sessions` dictionary within one
process (no other code in src/auth.py writes to it). -/
inductive SessionOp where
  | blacklistOp (time : Nat) (token : String) (reason : String)
  | cleanupOp (time : Nat)
deriving Repr, DecidableEq

def SessionOp.time : SessionOp → Nat
  | .blacklistOp t _ _ => t
  | .cleanupOp t => t

def SessionOp.isCleanup : SessionOp → Bool
  | .blacklistOp _ _ _ => false
  | .cleanupOp _ => true

def applySessionOp (env : TokenEnv) (s : List (String × SessionData)) :
    SessionOp → List (String × SessionData)
  | .blacklistOp t tok r => blacklist_token env t tok r s
  | .cleanupOp t => cleanup_expired_sessions t s

def applySessionOps (env : TokenEnv) (s : List (String × SessionData))
    (ops : List SessionOp) : List (String × SessionData) :=
  ops.foldl (applySessionOp env) s

/-- A concrete token environment: one well-signed refresh token with claims
as produced by `auth.create_refresh_token` (30-day expiry, no `jti`), every
other string failing signature verification. -/
def refreshEnv : TokenEnv :=
  ⟨fun t => if t = "refreshtok" then some ⟨some "admin@x", some "refresh", some 2592000, none⟩
            else none,
   fun _ => "encoded"⟩

/-! ## Exception handlers (src/main.py lines 473-549) -/

/-- The exception classes distinguished by the handlers registered on the
FastAPI app: `RequestValidationError`, `fastapi.HTTPException`, Starlette
`HTTPException` (raised by the framework for unknown routes), and any other
uncaught exception (handled by the registered 500 handler). -/
inductive AppException where
  | validationError (details : List String)
  | httpExc (status : Nat) (detail : String)
  | starletteHttp (status : Nat) (detail : String)
  | uncaught (message : String)
deriving Repr, DecidableEq

/-- A `JSONResponse` as built by the handlers: status code plus the `error`
and `message` fields of the JSON body (the remaining body fields carry
request metadata). -/
structure JsonResponse where
  status_code : Nat
  body_error : String
  body_message : String
deriving Repr, DecidableEq

/-- `main.http_exception_handler` (src/main.py lines 473-488). -/
def http_exception_handler (status : Nat) (detail : String) : JsonResponse :=
  ⟨status, "HTTP " ++ pyStr status, detail⟩

/-- `main.validation_exception_handler` (src/main.py lines 491-506). -/
def validation_exception_handler : JsonResponse :=
  ⟨422, "Validation Error", "Invalid request data"⟩

/-- `main.starlette_exception_handler` (src/main.py lines 509-532). -/
def starlette_exception_handler (status : Nat) (detail : String) : JsonResponse :=
  if status = 404 then ⟨404, "Not Found", "The requested resource was not found"⟩
  else ⟨status, "HTTP " ++ pyStr status, detail⟩

/-- `main.internal_server_error_handler` (src/main.py lines 535-549); the
message shown depends on `settings.ENVIRONMENT` and is passed through. -/
def internal_server_error_handler (message : String) : JsonResponse :=
  ⟨500, "Internal Server Error", message⟩

/-- FastAPI dispatch of a raised exception to the most specific registered
handler. -/
def handle_exception : AppException → JsonResponse
  | .validationError _ => validation_exception_handler
  | .httpExc status detail => http_exception_handler status detail
  | .starletteHttp status detail => starlette_exception_handler status detail
  | .uncaught message => internal_server_error_handler message

/-! ## Admin-safety operations (src/auth.py lines 599-707) -/

/-- The count query shared by `deactivate_user` and `remove_admin`: other
users that are active admins. -/
def countOtherActiveAdmins (db : List User) (user_id : Nat) : Nat :=
  (db.filter (fun u => u.is_admin && u.is_active && u.id != user_id)).length

/-- `auth.deactivate_user` (src/auth.py lines 599-638): 404 when the user is
missing, 400 when the target is an admin and no other active admin exists,
otherwise clear `is_active`.  The table is returned unchanged on error. -/
def deactivate_user (now : Nat) (db : List User) (user_id : Nat) :
    Except HttpError Bool × List User :=
  match db.find? (fun u => u.id == user_id) with
  | none => (.error ⟨404, "User not found"⟩, db)
  | some user =>
      if user.is_admin then
        if countOtherActiveAdmins db user_id = 0 then
          (.error ⟨400, "Cannot deactivate the last active admin"⟩, db)
        else
          (.ok true, updateFirst (fun u => u.id == user_id)
            (fun u => { u with is_active := false, updated_at := some now }) db)
      else
        (.ok true, updateFirst (fun u => u.id == user_id)
          (fun u => { u with is_active := false, updated_at := some now }) db)

/-- `auth.remove_admin` (src/auth.py lines 669-707): 404 when the user is
missing, 400 when no other active admin exists, otherwise clear `is_admin`. -/
def remove_admin (now : Nat) (db : List User) (user_id : Nat) :
    Except HttpError Bool × List User :=
  match db.find? (fun u => u.id == user_id) with
  | none => (.error ⟨404, "User not found"⟩, db)
  | some _ =>
      if countOtherActiveAdmins db user_id = 0 then
        (.error ⟨400, "Cannot remove admin rights from the last active admin"⟩, db)
      else
        (.ok true, updateFirst (fun u => u.id == user_id)
          (fun u => { u with is_admin := false, updated_at := some now }) db)

/-- A sequence of the two admin-safety operations applied to the user table. -/
inductive AdminOp where
  | deactOp (user_id : Nat)
  | removeAdminOp (user_id : Nat)
deriving Repr, DecidableEq

def applyAdminOp (now : Nat) (db : List User) : AdminOp → List User
  | .deactOp uid => (deactivate_user now db uid).2
  | .removeAdminOp uid => (remove_admin now db uid).2

def applyAdminOps (now : Nat) (db : List User) (ops : List AdminOp) : List User :=
  ops.foldl (applyAdminOp now) db

/-! ## File upload pipeline (src/utils.py lines 28-275) -/

/-- The ASCII byte sequence of a string (for byte-level pattern checks on
file contents). -/
def asciiBytes (s : String) : List Nat := s.data.map Char.toNat

/-- `bytes.lower()` on one byte. -/
def byteLower (b : Nat) : Nat := if 65 ≤ b ∧ b ≤ 90 then b + 32 else b

/-- Boolean containment of `pat` as a contiguous part of `l` (Python
`pat in l` on bytes and strings). -/
def isInfixB {α : Type} [BEq α] (pat : List α) : List α → Bool
  | [] => pat.isEmpty
  | a :: rest => pat.isPrefixOf (a :: rest) || isInfixB pat rest

/-- The summary dictionary returned by `utils.optimize_image` (PIL-based;
external), restricted to the fields with fixed meaning. -/
structure OptInfo where
  original_size : Nat
  optimized_size : Nat
  resized : Bool
deriving Repr, DecidableEq

/-- The external dependencies of the upload pipeline: `hashlib.sha256`
hex digests, `mimetypes.guess_type`, `int(time.time())`,
`uuid.uuid4().hex[:8]`, and the PIL-based image optimisation and
thumbnailing (which return `None` on failure, tolerated by the source). -/
structure UploadEnv where
  sha256hex : List Nat → String
  guessMime : String → Option String
  timestamp : Nat
  uuidHex8 : String
  optimizeInfo : String → Option OptInfo
  thumbPath : String → Option String

/-- Filesystem side effects of `save_uploaded_file`, in program order. -/
inductive FsEffect where
  | writeFile (path : String) (content : List Nat)
  | optimizeCall (path : String)
  | thumbnailCall (path : String)
deriving Repr, DecidableEq

/-- `utils.calculate_file_hash` (src/utils.py lines 87-95): delegate to
`hashlib.sha256(...).hexdigest()`; `update`/`hexdigest` cannot fail on an
in-memory bytes value, so the defensive except branch is dead. -/
def calculate_file_hash (env : UploadEnv) (file_content : List Nat) : String :=
  env.sha256hex file_content

/-- The `magic_numbers` dictionary of `utils.get_file_mime_type`, in
insertion (= iteration) order. -/
def magicNumbers : List (List Nat × String) :=
  [([255, 216, 255], "image/jpeg"),
   ([137, 80, 78, 71, 13, 10, 26, 10], "image/png"),
   (asciiBytes "GIF87a", "image/gif"),
   (asciiBytes "GIF89a", "image/gif"),
   (asciiBytes "RIFF", "image/webp"),
   (asciiBytes "BM", "image/bmp"),
   (asciiBytes "%PDF", "application/pdf"),
   ([80, 75, 3, 4], "application/zip")]

/-- `utils.get_file_mime_type` (src/utils.py lines 98-124): first matching
magic number wins (with the RIFF disambiguation), else guess from the file
name, else `application/octet-stream`. -/
def get_file_mime_type (env : UploadEnv) (filename : String) (content : List Nat) : String :=
  match magicNumbers.find? (fun m => m.1.isPrefixOf content) with
  | some m =>
      if m.1 = asciiBytes "RIFF" then
        if isInfixB (asciiBytes "WEBP") (content.take 20) then "image/webp" else "audio/wav"
      else m.2
  | none => (env.guessMime filename).getD "application/octet-stream"

def suspiciousPatterns : List (List Nat) :=
  [asciiBytes "<script", asciiBytes "javascript:", asciiBytes "vbscript:",
   asciiBytes "<?php", asciiBytes "<%", asciiBytes "exec(", asciiBytes "system(",
   asciiBytes "shell_exec"]

def dangerousExtensions : List String :=
  [".exe", ".bat", ".cmd", ".com", ".pif", ".scr", ".vbs",
   ".js", ".jar", ".php", ".asp", ".aspx", ".jsp"]

/-- `pathlib.Path(name).suffix` / the extension part of
`os.path.splitext`: the last dot-separated part, empty for names without a
dot, for pure dotfiles and for names ending in a dot. -/
def pySuffix (name : String) : String :=
  let parts := name.splitOn "."
  if parts.length ≤ 1 then ""
  else if name.startsWith "." ∧ parts.length = 2 then ""
  else if parts.getLastD "" = "" then ""
  else "." ++ parts.getLastD ""

/-- `pathlib.Path(name).stem`: the name without its suffix. -/
def pyStem (name : String) : String := name.dropRight (pySuffix name).length

/-- `utils.is_file_safe` (src/utils.py lines 239-275): reject contents with
suspicious byte patterns (case-insensitively) and dangerous extensions. -/
def is_file_safe (content : List Nat) (filename : String) : Bool :=
  let content_lower := content.map byteLower
  if suspiciousPatterns.any (fun p => isInfixB p content_lower) then false
  else if filename ≠ "" ∧ dangerousExtensions.contains (pyLowerStr (pySuffix filename)) then false
  else true

def unsafeChars : List Char :=
  ['<', '>', ':', '"', '|', '?', '*', '\\', '/', '\x00', '\n', '\r']

/-- `re.sub(r'[_\s]+', '_', name)`: collapse runs of underscores and
whitespace into one underscore. -/
def collapseUnderscoreRuns : Bool → List Char → List Char
  | _, [] => []
  | inRun, c :: cs =>
      if c = '_' ∨ isPySpace c then
        if inRun then collapseUnderscoreRuns true cs
        else '_' :: collapseUnderscoreRuns true cs
      else c :: collapseUnderscoreRuns false cs

/-- `str.strip('_')`. -/
def stripUnderscores (s : String) : String :=
  String.mk ((s.data.dropWhile (· = '_')).reverse.dropWhile (· = '_') |>.reverse)

/-- `utils.sanitize_filename` (src/utils.py lines 465-489). -/
def sanitize_filename (filename : String) : String :=
  if filename = "" then "unnamed_file"
  else
    let clean1 := filename.data.map (fun c => if unsafeChars.contains c then '_' else c)
    let clean2 := String.mk (collapseUnderscoreRuns false clean1)
    let ext := pySuffix clean2
    let name := pyStem clean2
    let name2 := if name.length > 100 then name.take 100 else name
    let name3 := if stripUnderscores name2 = "" then "file" else name2
    stripUnderscores (name3 ++ ext)

/-- `utils.generate_unique_filename` (src/utils.py lines 37-56). -/
def generate_unique_filename (env : UploadEnv) (original_filename : String)
    (pfx : String) : String :=
  if original_filename = "" then pfx ++ pyStr env.timestamp ++ "_" ++ env.uuidHex8
  else
    let clean_name := sanitize_filename original_filename
    let file_extension := pyLowerStr (pySuffix clean_name)
    let name_part := (pyStem clean_name).take 50
    pfx ++ pyStr env.timestamp ++ "_" ++ env.uuidHex8 ++ "_" ++ name_part ++ file_extension

def documentMimes : List String :=
  ["application/pdf", "application/msword",
   "application/vnd.openxmlformats-officedocument.wordprocessingml.document",
   "application/vnd.ms-excel",
   "application/vnd.openxmlformats-officedocument.spreadsheetml.sheet",
   "text/plain", "text/csv"]

def imageExts : List String := [".jpg", ".jpeg", ".png", ".gif", ".webp", ".svg", ".bmp", ".ico"]

def documentExts : List String := [".pdf", ".doc", ".docx", ".xls", ".xlsx", ".txt", ".csv", ".rtf"]

def mediaExts : List String := [".mp4", ".avi", ".mov", ".webm", ".mp3", ".wav"]

/-- `utils.get_file_category` (src/utils.py lines 59-84). -/
def get_file_category (content_type : String) (filename : String) : String :=
  if content_type.startsWith "image/" then "images"
  else if documentMimes.contains content_type then "documents"
  else if filename ≠ "" then
    let ext := pyLowerStr (pySuffix filename)
    if imageExts.contains ext then "images"
    else if documentExts.contains ext then "documents"
    else if mediaExts.contains ext then "media"
    else "other"
  else "other"

/-- `pathlib.Path(p).name`: the part after the last separator. -/
def takeFileName (p : String) : String := (p.splitOn "/").getLastD p

/-- The dictionary returned by `save_uploaded_file`; the `optimized` field
holds the `**optimized_info` keys, which are disjoint from the named keys
(in particular from `"hash"`). -/
structure UploadResult where
  name : String
  original_name : String
  path : String
  url : String
  thumbnail_url : Option String
  category : String
  size : Nat
  content_type : String
  hash : String
  optimized : Option OptInfo
deriving Repr, DecidableEq

/-- An `UploadFile` as read by the handler: `file.filename` (optional) and
the bytes returned by `await file.read()`. -/
structure UploadFile where
  filename : Option String
  content : List Nat
deriving Repr, DecidableEq

/-- `utils.save_uploaded_file` (src/utils.py lines 127-209): size check
(413) before any filesystem write, then MIME sniffing, the safety check
(400), the disk write, hashing, and image post-processing.  Returns the
result (or the raised `HTTPException`) together with the filesystem effects
in program order. -/
def save_uploaded_file (env : UploadEnv) (maxFileSize : Nat) (uploadDir : String)
    (file : UploadFile) (folder : Option String) :
    Except HttpError UploadResult × List FsEffect :=
  let file_content := file.content
  let file_size := file_content.length
  if file_size > maxFileSize then
    (.error ⟨413, "File size " ++ pyStr file_size ++ " exceeds maximum allowed size " ++
      pyStr maxFileSize⟩, [])
  else
    let actual_mime_type := get_file_mime_type env (file.filename.getD "unknown") file_content
    if !(is_file_safe file_content (file.filename.getD "")) then
      (.error ⟨400, "File appears to be unsafe or contains malicious content"⟩, [])
    else
      let pfx := match folder with | some f => f ++ "_" | none => ""
      let unique_filename := generate_unique_filename env (file.filename.getD "unknown") pfx
      let category := get_file_category actual_mime_type (file.filename.getD "")
      let file_path := uploadDir ++ "/" ++ category ++ "/" ++ unique_filename
      let file_hash := calculate_file_hash env file_content
      let thumbnail_url :=
        if category = "images" then
          (env.thumbPath file_path).map
            (fun p => "/uploads/" ++ category ++ "/thumbnails/" ++ takeFileName p)
        else none
      let optInfo := if category = "images" then env.optimizeInfo file_path else none
      let imgEffects :=
        if category = "images" then
          [FsEffect.optimizeCall file_path, FsEffect.thumbnailCall file_path]
        else []
      (.ok ⟨unique_filename, file.filename.getD "unknown", file_path,
        "/uploads/" ++ category ++ "/" ++ unique_filename, thumbnail_url, category,
        file_size, actual_mime_type, file_hash, optInfo⟩,
       FsEffect.writeFile file_path file_content :: imgEffects)

/-! ## Migration runner (src/migrate.py)

The MySQL schema is modelled as the set of tables with their column and
index names (column types do not influence any verified property); the
`site_settings` and `file_categories` rows touched by the INSERT IGNORE
migrations are tracked by their unique keys.  SQL statements are modelled
by `SqlOp` with MySQL semantics: duplicate DDL fails with the usual
lowercase error message and leaves the schema unchanged, INSERT IGNORE
silently skips existing keys, SET GLOBAL touches no schema object. -/

structure TableS where
  name : String
  columns : List String
  indexes : List String
deriving Repr, DecidableEq

structure Schema where
  tables : List TableS
  settingKeys : List String
  fileCategorySlugs : List String
deriving Repr, DecidableEq

inductive SqlOp where
  | addColumn (table : String) (col : String)
  | createTable (table : String) (cols : List String) (idxs : List String)
  | createIndex (table : String) (idx : String)
  | insertIgnoreSetting (key : String)
  | insertIgnoreFileCategory (slug : String)
  | setGlobal (name : String) (value : Nat)
deriving Repr, DecidableEq

/-- `DatabaseMigrator.table_exists` (src/migrate.py lines 151-153). -/
def tableExistsB (sch : Schema) (t : String) : Bool :=
  sch.tables.any (fun tb => tb.name == t)

/-- `DatabaseMigrator.column_exists` (src/migrate.py lines 143-149). -/
def columnExistsB (sch : Schema) (t c : String) : Bool :=
  sch.tables.any (fun tb => tb.name == t && tb.columns.contains c)

/-- `DatabaseMigrator.index_exists` (src/migrate.py lines 155-161). -/
def indexExistsB (sch : Schema) (t i : String) : Bool :=
  sch.tables.any (fun tb => tb.name == t && tb.indexes.contains i)

/-- MySQL execution of one statement: `Except` carries the error message of
a failed statement (duplicate DDL uses the stock MySQL wording). -/
def applySql (sch : Schema) : SqlOp → Except String Schema
  | .addColumn t c =>
      if !(tableExistsB sch t) then .error ("unknown table " ++ t)
      else if columnExistsB sch t c then .error ("duplicate column name " ++ c)
      else
        let tables2 := updateFirst (fun tb => tb.name == t)
          (fun tb => { tb with columns := tb.columns ++ [c] }) sch.tables
        .ok { sch with tables := tables2 }
  | .createTable t cols idxs =>
      if tableExistsB sch t then .error ("table " ++ t ++ " already exists")
      else .ok { sch with tables := sch.tables ++ [⟨t, cols, idxs⟩] }
  | .createIndex t i =>
      if !(tableExistsB sch t) then .error ("unknown table " ++ t)
      else if indexExistsB sch t i then .error ("duplicate key name " ++ i)
      else
        let tables2 := updateFirst (fun tb => tb.name == t)
          (fun tb => { tb with indexes := tb.indexes ++ [i] }) sch.tables
        .ok { sch with tables := tables2 }
  | .insertIgnoreSetting k =>
      .ok (if sch.settingKeys.contains k then sch
           else { sch with settingKeys := sch.settingKeys ++ [k] })
  | .insertIgnoreFileCategory s =>
      .ok (if sch.fileCategorySlugs.contains s then sch
           else { sch with fileCategorySlugs := sch.fileCategorySlugs ++ [s] })
  | .setGlobal _ _ => .ok sch

/-- Python `pat in s` on strings. -/
def strContains (s pat : String) : Bool := isInfixB pat.data s.data

/-- The error fragments that `execute_sql` treats as benign duplicates. -/
def duplicatePhrases : List String := ["duplicate column", "already exists", "duplicate key"]

/-- `DatabaseMigrator.execute_sql` (src/migrate.py lines 181-209, with
`dry_run = False`): run the statement; a database error whose lowercased
message contains one of `duplicatePhrases` counts as success. -/
def execute_sql (sch : Schema) (op : SqlOp) : Bool × Schema :=
  match applySql sch op with
  | .ok sch2 => (true, sch2)
  | .error msg =>
      if duplicatePhrases.any (fun p => strContains (pyLowerStr msg) p) then (true, sch)
      else (false, sch)

/-- The migrator state: live schema, the `schema_migrations` rows
(version, success flag), and the log of SQL statements actually sent. -/
structure MigState where
  schema : Schema
  executed : List (String × Bool)
  sqlLog : List SqlOp
deriving Repr, DecidableEq

/-- `execute_sql` at migrator level, recording the statement in the log. -/
def execSqlM (st : MigState) (op : SqlOp) : Bool × MigState :=
  let r := execute_sql st.schema op
  (r.1, { st with schema := r.2, sqlLog := st.sqlLog ++ [op] })

/-- Direct `connection.execute` under `try/except` (used only by
migration 018, which bypasses `execute_sql`). -/
def execRawM (st : MigState) (op : SqlOp) : Bool × MigState :=
  match applySql st.schema op with
  | .ok sch2 => (true, { st with schema := sch2, sqlLog := st.sqlLog ++ [op] })
  | .error _ => (false, { st with sqlLog := st.sqlLog ++ [op] })

/-- The `for field_name, field_type in fields` loop shared by the
column-adding migrations: skip existing columns, count successes. -/
def addColumnsLoop (table : String) : List String → Nat → MigState → Nat × MigState
  | [], cnt, st => (cnt, st)
  | f :: fs, cnt, st =>
      if !(columnExistsB st.schema table f) then
        let r := execSqlM st (.addColumn table f)
        addColumnsLoop table fs (if r.1 then cnt + 1 else cnt) r.2
      else addColumnsLoop table fs (cnt + 1) st

/-- The common shape of migrations 002-004, 006-009, 011-012, 021-023, 025:
skip when the table is missing, else add the missing columns and succeed
iff every field was added or already present. -/
def addFieldsMigration (table : String) (fields : List String) (st : MigState) :
    Bool × MigState :=
  if !(tableExistsB st.schema table) then (true, st)
  else
    let r := addColumnsLoop table fields 0 st
    (r.1 == fields.length, r.2)

def migration_001_add_show_live_demo_to_designs (st : MigState) : Bool × MigState :=
  if !(tableExistsB st.schema "designs") then (true, st)
  else if columnExistsB st.schema "designs" "show_live_demo" then (true, st)
  else execSqlM st (.addColumn "designs" "show_live_demo")

def migration_002_add_design_enhancement_fields (st : MigState) : Bool × MigState :=
  addFieldsMigration "designs" ["slug", "is_published", "is_featured", "sort_order", "views_count"] st

def migration_003_add_package_enhancement_fields (st : MigState) : Bool × MigState :=
  addFieldsMigration "packages" ["slug", "is_active", "sort_order"] st

def migration_004_add_review_enhancement_fields (st : MigState) : Bool × MigState :=
  addFieldsMigration "reviews" ["is_featured", "sort_order", "approved_at"] st

def migration_005_add_faq_enhancement_fields (st : MigState) : Bool × MigState :=
  if !(tableExistsB st.schema "faq") then (true, st)
  else if columnExistsB st.schema "faq" "is_active" then (true, st)
  else execSqlM st (.addColumn "faq" "is_active")

def migration_006_add_content_enhancement_fields (st : MigState) : Bool × MigState :=
  addFieldsMigration "content" ["description", "is_active"] st

def migration_007_add_contact_info_working_hours (st : MigState) : Bool × MigState :=
  addFieldsMigration "contact_info" ["working_hours_uk", "working_hours_en"] st

def migration_008_enhance_uploaded_files_table (st : MigState) : Bool × MigState :=
  addFieldsMigration "uploaded_files" ["thumbnail_url", "category", "hash", "alt_text", "is_used"] st

def migration_009_enhance_policies_table (st : MigState) : Bool × MigState :=
  addFieldsMigration "policies" ["is_active", "version"] st

def migration_010_add_structured_data_to_seo (st : MigState) : Bool × MigState :=
  if !(tableExistsB st.schema "seo_settings") then (true, st)
  else if columnExistsB st.schema "seo_settings" "structured_data" then (true, st)
  else execSqlM st (.addColumn "seo_settings" "structured_data")

def migration_011_add_quote_application_fields (st : MigState) : Bool × MigState :=
  addFieldsMigration "quote_applications" ["response_text", "processed_at"] st

def migration_012_add_consultation_application_fields (st : MigState) : Bool × MigState :=
  addFieldsMigration "consultation_applications"
    ["consultation_scheduled_at", "consultation_completed_at", "notes"] st

/-- The index list of migration 013 (index name, table). -/
def perfIndexes : List (String × String) :=
  [("idx_designs_category_published", "designs"), ("idx_designs_featured", "designs"),
   ("idx_designs_published_sort", "designs"), ("idx_reviews_approved", "reviews"),
   ("idx_reviews_featured", "reviews"), ("idx_reviews_approved_featured", "reviews"),
   ("idx_quote_apps_status", "quote_applications"), ("idx_quote_apps_created", "quote_applications"),
   ("idx_consultation_apps_status", "consultation_applications"),
   ("idx_consultation_apps_created", "consultation_applications"),
   ("idx_uploaded_files_category", "uploaded_files"), ("idx_uploaded_files_hash", "uploaded_files"),
   ("idx_content_key", "content"), ("idx_content_active", "content"),
   ("idx_faq_order", "faq")]

/-- The loop of migration 013: per index, guarded by table and index
existence; indexes on missing tables are skipped without counting. -/
def createIndexesLoop : List (String × String) → Nat → MigState → Nat × MigState
  | [], cnt, st => (cnt, st)
  | (iname, t) :: rest, cnt, st =>
      if tableExistsB st.schema t then
        if !(indexExistsB st.schema t iname) then
          let r := execSqlM st (.createIndex t iname)
          createIndexesLoop rest (if r.1 then cnt + 1 else cnt) r.2
        else createIndexesLoop rest (cnt + 1) st
      else createIndexesLoop rest cnt st

def migration_013_create_performance_indexes (st : MigState) : Bool × MigState :=
  let r := createIndexesLoop perfIndexes 0 st
  (decide (r.1 > 0), r.2)

def siteSettingsCols : List String :=
  ["id", "key", "value", "type", "category", "description", "is_public",
   "created_at", "updated_at"]

def siteSettingsIdxs : List String :=
  ["idx_site_settings_key", "idx_site_settings_category", "idx_site_settings_public"]

def migration_014_create_site_settings_table (st : MigState) : Bool × MigState :=
  if tableExistsB st.schema "site_settings" then (true, st)
  else execSqlM st (.createTable "site_settings" siteSettingsCols siteSettingsIdxs)

def emailTemplatesCols : List String :=
  ["id", "name", "subject_uk", "subject_en", "content_uk", "content_en",
   "variables", "is_active", "created_at", "updated_at"]

def emailLogsCols : List String :=
  ["id", "template_name", "recipient_email", "subject", "content", "status",
   "error_message", "sent_at", "created_at"]

def migration_015_create_email_tables (st : MigState) : Bool × MigState :=
  let r1 :=
    if !(tableExistsB st.schema "email_templates") then
      execSqlM st (.createTable "email_templates" emailTemplatesCols
        ["idx_email_templates_name", "idx_email_templates_active"])
    else (true, st)
  let r2 :=
    if !(tableExistsB r1.2.schema "email_logs") then
      execSqlM r1.2 (.createTable "email_logs" emailLogsCols
        ["idx_email_logs_recipient", "idx_email_logs_status", "idx_email_logs_template",
         "idx_email_logs_created"])
    else (true, r1.2)
  (r1.1 && r2.1, r2.2)

def migration_016_create_site_stats_table (st : MigState) : Bool × MigState :=
  if tableExistsB st.schema "site_stats" then (true, st)
  else execSqlM st (.createTable "site_stats"
    ["id", "date", "visits", "page_views", "unique_visitors", "quote_applications",
     "consultation_applications", "created_at"]
    ["idx_site_stats_date", "idx_site_stats_date_range"])

def migration_017_add_category_active_field (st : MigState) : Bool × MigState :=
  if !(tableExistsB st.schema "design_categories") then (true, st)
  else if columnExistsB st.schema "design_categories" "is_active" then (true, st)
  else execSqlM st (.addColumn "design_categories" "is_active")

/-- Migration 018 executes three `SET GLOBAL` statements unconditionally
(directly on a connection, not through `execute_sql`), counting those that
did not raise. -/
def migration_018_optimize_database_settings (st : MigState) : Bool × MigState :=
  let r1 := execRawM st (.setGlobal "innodb_buffer_pool_size" 134217728)
  let r2 := execRawM r1.2 (.setGlobal "query_cache_size" 16777216)
  let r3 := execRawM r2.2 (.setGlobal "max_connections" 151)
  let cnt := (if r1.1 then 1 else 0) + (if r2.1 then 1 else 0) + (if r3.1 then 1 else 0)
  (decide (cnt > 0), r3.2)

def aboutContentCols : List String :=
  ["id", "hero_description_uk", "hero_description_en", "mission_uk", "mission_en",
   "vision_uk", "vision_en", "why_choose_us_uk", "why_choose_us_en",
   "cta_title_uk", "cta_title_en", "cta_description_uk", "cta_description_en",
   "created_at", "updated_at"]

def migration_019_create_about_content_table (st : MigState) : Bool × MigState :=
  if tableExistsB st.schema "about_content" then (true, st)
  else execSqlM st (.createTable "about_content" aboutContentCols [])

def teamMembersCols : List String :=
  ["id", "name", "role_uk", "role_en", "skills", "avatar", "initials",
   "order_index", "is_active", "created_at", "updated_at"]

def migration_020_create_team_members_table (st : MigState) : Bool × MigState :=
  if tableExistsB st.schema "team_members" then (true, st)
  else execSqlM st (.createTable "team_members" teamMembersCols
    ["idx_team_active", "idx_team_order", "idx_team_active_order"])

def migration_021_add_user_password_fields (st : MigState) : Bool × MigState :=
  addFieldsMigration "users" ["password_changed_at", "last_login"] st

def migration_022_enhance_email_logs_table (st : MigState) : Bool × MigState :=
  addFieldsMigration "email_logs"
    ["ip_address", "user_agent", "priority", "retry_count", "last_retry_at"] st

def migration_023_add_avatar_fields_to_team (st : MigState) : Bool × MigState :=
  addFieldsMigration "team_members"
    ["avatar_thumbnail", "avatar_original", "avatar_color", "display_avatar"] st

def adminActivityLogCols : List String :=
  ["id", "user_id", "action", "resource_type", "resource_id", "details",
   "ip_address", "user_agent", "created_at"]

def migration_024_create_admin_activity_log (st : MigState) : Bool × MigState :=
  if tableExistsB st.schema "admin_activity_log" then (true, st)
  else execSqlM st (.createTable "admin_activity_log" adminActivityLogCols
    ["idx_admin_activity_user", "idx_admin_activity_action", "idx_admin_activity_resource",
     "idx_admin_activity_created"])

def migration_025_add_seo_fields_to_about (st : MigState) : Bool × MigState :=
  addFieldsMigration "about_content"
    ["meta_title_uk", "meta_title_en", "meta_description_uk", "meta_description_en",
     "og_image"] st

/-- The loop of migration 026 (the table guard already passed). -/
def createIndexesLoopNG : List (String × String) → Nat → MigState → Nat × MigState
  | [], cnt, st => (cnt, st)
  | (iname, t) :: rest, cnt, st =>
      if !(indexExistsB st.schema t iname) then
        let r := execSqlM st (.createIndex t iname)
        createIndexesLoopNG rest (if r.1 then cnt + 1 else cnt) r.2
      else createIndexesLoopNG rest (cnt + 1) st

def migration_026_optimize_team_indexes (st : MigState) : Bool × MigState :=
  if !(tableExistsB st.schema "team_members") then (true, st)
  else
    let r := createIndexesLoopNG
      [("idx_team_name", "team_members"), ("idx_team_skills", "team_members"),
       ("idx_team_created", "team_members"), ("idx_team_updated", "team_members")] 0 st
    (decide (r.1 > 0), r.2)

def backupSettingKeys : List String :=
  ["auto_backup_enabled", "backup_frequency", "backup_retention_days",
   "backup_path", "last_backup_at"]

/-- Insert a list of `site_settings` rows with `INSERT IGNORE`, discarding
the per-row results (migrations 027 and 030 ignore them). -/
def insertSettingsLoop : List String → MigState → MigState
  | [], st => st
  | k :: ks, st => insertSettingsLoop ks (execSqlM st (.insertIgnoreSetting k)).2

def migration_027_add_backup_settings (st : MigState) : Bool × MigState :=
  if !(tableExistsB st.schema "site_settings") then (true, st)
  else (true, insertSettingsLoop backupSettingKeys st)

def securityEventsCols : List String :=
  ["id", "event_type", "severity", "user_id", "ip_address", "user_agent", "details",
   "resolved", "resolved_at", "resolved_by", "created_at"]

def migration_028_enhance_security_logging (st : MigState) : Bool × MigState :=
  if tableExistsB st.schema "security_events" then (true, st)
  else execSqlM st (.createTable "security_events" securityEventsCols
    ["idx_security_events_type", "idx_security_events_severity", "idx_security_events_user",
     "idx_security_events_ip", "idx_security_events_created", "idx_security_events_unresolved"])

def fileCategoriesCols : List String :=
  ["id", "name", "slug", "description", "allowed_extensions", "max_file_size",
   "icon", "color", "is_active", "created_at", "updated_at"]

def insertFileCategoriesLoop : List String → MigState → MigState
  | [], st => st
  | s :: ss, st => insertFileCategoriesLoop ss (execSqlM st (.insertIgnoreFileCategory s)).2

def migration_029_create_file_categories_table (st : MigState) : Bool × MigState :=
  if tableExistsB st.schema "file_categories" then (true, st)
  else
    let r := execSqlM st (.createTable "file_categories" fileCategoriesCols
      ["idx_file_categories_active", "idx_file_categories_slug"])
    if r.1 then
      (true, insertFileCategoriesLoop ["images", "documents", "media", "other"] r.2)
    else (false, r.2)

def languageSettingKeys : List String :=
  ["default_language", "supported_languages", "auto_detect_language", "fallback_language"]

def migration_030_add_multilingual_support (st : MigState) : Bool × MigState :=
  if !(tableExistsB st.schema "site_settings") then (true, st)
  else (true, insertSettingsLoop languageSettingKeys st)

/-- The 30 migration versions in definition order. -/
def migrationVersions : List String :=
  ["001", "002", "003", "004", "005", "006", "007", "008", "009", "010",
   "011", "012", "013", "014", "015", "016", "017", "018", "019", "020",
   "021", "022", "023", "024", "025", "026", "027", "028", "029", "030"]

/-- Dispatch of `run_migration` to the `migration_{version}_{name}` method. -/
def runMigrationMethod (version : String) (st : MigState) : Bool × MigState :=
  match version with
  | "001" => migration_001_add_show_live_demo_to_designs st
  | "002" => migration_002_add_design_enhancement_fields st
  | "003" => migration_003_add_package_enhancement_fields st
  | "004" => migration_004_add_review_enhancement_fields st
  | "005" => migration_005_add_faq_enhancement_fields st
  | "006" => migration_006_add_content_enhancement_fields st
  | "007" => migration_007_add_contact_info_working_hours st
  | "008" => migration_008_enhance_uploaded_files_table st
  | "009" => migration_009_enhance_policies_table st
  | "010" => migration_010_add_structured_data_to_seo st
  | "011" => migration_011_add_quote_application_fields st
  | "012" => migration_012_add_consultation_application_fields st
  | "013" => migration_013_create_performance_indexes st
  | "014" => migration_014_create_site_settings_table st
  | "015" => migration_015_create_email_tables st
  | "016" => migration_016_create_site_stats_table st
  | "017" => migration_017_add_category_active_field st
  | "018" => migration_018_optimize_database_settings st
  | "019" => migration_019_create_about_content_table st
  | "020" => migration_020_create_team_members_table st
  | "021" => migration_021_add_user_password_fields st
  | "022" => migration_022_enhance_email_logs_table st
  | "023" => migration_023_add_avatar_fields_to_team st
  | "024" => migration_024_create_admin_activity_log st
  | "025" => migration_025_add_seo_fields_to_about st
  | "026" => migration_026_optimize_team_indexes st
  | "027" => migration_027_add_backup_settings st
  | "028" => migration_028_enhance_security_logging st
  | "029" => migration_029_create_file_categories_table st
  | "030" => migration_030_add_multilingual_support st
  | _ => (false, st)

/-- `record_migration` with `ON DUPLICATE KEY UPDATE` semantics on the
`version` unique key. -/
def recordMigration : List (String × Bool) → String → Bool → List (String × Bool)
  | [], v, ok => [(v, ok)]
  | (v0, b0) :: rest, v, ok =>
      if v0 = v then (v, ok) :: rest else (v0, b0) :: recordMigration rest v ok

/-- `DatabaseMigrator.run_migration` (src/migrate.py lines 1051-1098). -/
def run_migration (v : String) (st : MigState) : Bool × MigState :=
  let r := runMigrationMethod v st
  (r.1, { r.2 with executed := recordMigration r.2.executed v r.1 })

/-- `get_executed_migrations`: versions recorded with `success = TRUE`. -/
def get_executed_migrations (ex : List (String × Bool)) : List String :=
  (ex.filter (fun r => r.2)).map (fun r => r.1)

/-- The pending-migration filter of `run_all_migrations` (src/migrate.py
lines 1110-1116), including the break after a requested target version. -/
def buildPending : List String → List String → Option String → List String
  | [], _, _ => []
  | v :: rest, executed, target =>
      if executed.contains v then buildPending rest executed target
      else if target = some v then [v]
      else v :: buildPending rest executed target

/-- The main loop of `run_all_migrations`: stop at the first failure. -/
def runPendingLoop : List String → MigState → Bool × MigState
  | [], st => (true, st)
  | v :: rest, st =>
      let r := run_migration v st
      if r.1 then runPendingLoop rest r.2 else (false, r.2)

/-- `DatabaseMigrator.run_all_migrations` (src/migrate.py lines 1100-1149). -/
def run_all_migrations (st : MigState) (target : Option String) : Bool × MigState :=
  let pending := buildPending migrationVersions (get_executed_migrations st.executed) target
  if pending.isEmpty then (true, st) else runPendingLoop pending st

/-- The tables present before any migration runs (created by the ORM
metadata of src/models.py); only names matter to the migration guards. -/
def baseSchema : Schema :=
  ⟨["designs", "packages", "reviews", "faq", "content", "contact_info",
    "uploaded_files", "policies", "seo_settings", "quote_applications",
    "consultation_applications", "design_categories", "users"].map
      (fun n => ⟨n, [], []⟩), [], []⟩

def initialMigState : MigState := ⟨baseSchema, [], []⟩

/-- The result of the first full migration run. -/
def firstRunResult : Bool × MigState := run_all_migrations initialMigState none

/-- The schema after one full migration run. -/
def migratedSchema : Schema := firstRunResult.2.schema

/-- A fully migrated schema with an empty tracking table and SQL log. -/
def migratedState0 : MigState := ⟨migratedSchema, [], []⟩

/-- The migrations that guard every statement behind an existence check
(all of them except 018, 027 and 030). -/
def guardedVersions : List String :=
  ["001", "002", "003", "004", "005", "006", "007", "008", "009", "010",
   "011", "012", "013", "014", "015", "016", "017", "019", "020",
   "021", "022", "023", "024", "025", "026", "028", "029"]

/-- Decimal value of a least-significant-first digit list (proof helper for
the injectivity of `pyStr`). -/
def ofDigitsRev : List Nat → Nat
  | [] => 0
  | d :: ds => d + 10 * ofDigitsRev ds

example : slugify "Hello World" = "hello-world" := by decide
example : slugify "  Привіт світ  " = "privit-svit" := by decide
example : slugify "" = "" := by decide
example : slugify "!!!" = "item" := by decide
example : pyStr 120 = "120" := by decide
example : generate_slug "Hello" [⟨1, "hello"⟩, ⟨2, "hello-1"⟩] none = some "hello-2" := by decide
example : generate_slug "Hello" [⟨1, "hello"⟩] (some 1) = some "hello" := by decide
example : create_design ⟨"Hello", "c1"⟩ [⟨"c1"⟩] [⟨1, "Hello", "hello", "c1"⟩] 2 =
    .ok (⟨2, "Hello", "hello-1", "c1"⟩, [⟨1, "Hello", "hello", "c1"⟩, ⟨2, "Hello", "hello-1", "c1"⟩]) :=
  rfl

/-! ## Injectivity of the decimal numeral and of the candidate slugs -/

theorem ofDigitsRev_toDigitsRevFuel :
    ∀ (fuel n : Nat), n ≤ fuel → ofDigitsRev (toDigitsRevFuel fuel n) = n := by
  intro fuel
  induction fuel with
  | zero =>
      intro n hn
      interval_cases n
      simp [toDigitsRevFuel, ofDigitsRev]
  | succ f ih =>
      intro n hn
      by_cases h0 : n = 0
      · subst h0; simp [toDigitsRevFuel, ofDigitsRev]
      · have hdiv : n / 10 ≤ f := by
          have : n / 10 < n := Nat.div_lt_self (Nat.pos_of_ne_zero h0) (by norm_num)
          omega
        simp [toDigitsRevFuel, h0, ofDigitsRev, ih _ hdiv]
        omega

theorem toDigitsRevFuel_lt_ten :
    ∀ (fuel n : Nat), ∀ d ∈ toDigitsRevFuel fuel n, d < 10 := by
  intro fuel
  induction fuel with
  | zero => intro n d hd; simp [toDigitsRevFuel] at hd
  | succ f ih =>
      intro n d hd
      by_cases h0 : n = 0
      · simp [toDigitsRevFuel, h0] at hd
      · simp only [toDigitsRevFuel, h0, if_false, List.mem_cons] at hd
        rcases hd with h | h
        · omega
        · exact ih _ d h

theorem charDigit_digitChar {d : Nat} (hd : d < 10) : charDigit (digitChar d) = d := by
  interval_cases d <;> rfl

theorem map_charDigit_digitChar {l : List Nat} (h : ∀ d ∈ l, d < 10) :
    (l.map digitChar).map charDigit = l := by
  induction l with
  | nil => rfl
  | cons d ds ih =>
      simp only [List.map_cons, List.cons.injEq]
      exact ⟨charDigit_digitChar (h d (by simp)), ih (fun x hx => h x (by simp [hx]))⟩

theorem decimalDigitsRev_roundtrip (n : Nat) :
    ((((decimalDigitsRev n).reverse.map digitChar).map charDigit).reverse) = decimalDigitsRev n := by
  have hlt : ∀ d ∈ (decimalDigitsRev n).reverse, d < 10 := by
    intro d hd
    exact toDigitsRevFuel_lt_ten n n d (List.mem_reverse.mp hd)
  rw [map_charDigit_digitChar hlt, List.reverse_reverse]

theorem ofDigitsRev_decimalDigitsRev (n : Nat) : ofDigitsRev (decimalDigitsRev n) = n :=
  ofDigitsRev_toDigitsRevFuel n n (le_refl n)

theorem digitList_cancel {a b : Nat} (hab : (decimalDigitsRev a).reverse.map digitChar =
    (decimalDigitsRev b).reverse.map digitChar) : a = b := by
  have h2 := congrArg (fun l => (List.map charDigit l).reverse) hab
  simp only at h2
  rw [decimalDigitsRev_roundtrip a, decimalDigitsRev_roundtrip b] at h2
  calc a = ofDigitsRev (decimalDigitsRev a) := (ofDigitsRev_decimalDigitsRev a).symm
    _ = ofDigitsRev (decimalDigitsRev b) := by rw [h2]
    _ = b := ofDigitsRev_decimalDigitsRev b

theorem digitList_zero {b : Nat} (hb : (decimalDigitsRev b).reverse.map digitChar = ['0']) :
    b = 0 := by
  have h2 := congrArg (fun l => (List.map charDigit l).reverse) hb
  simp only at h2
  rw [decimalDigitsRev_roundtrip b] at h2
  have h3 : decimalDigitsRev b = [0] := by
    rw [h2]; rfl
  have h4 := ofDigitsRev_decimalDigitsRev b
  rw [h3] at h4
  simpa [ofDigitsRev] using h4.symm

theorem pyStr_injective : Function.Injective pyStr := by
  intro n m h
  unfold pyStr at h
  by_cases hn : n = 0 <;> by_cases hm : m = 0
  · omega
  · exfalso
    simp only [hn, if_true, hm, if_false] at h
    have hdata : (decimalDigitsRev m).reverse.map digitChar = ['0'] := by
      have := congrArg String.data h
      exact this.symm
    exact hm (digitList_zero hdata)
  · exfalso
    simp only [hn, if_false, hm, if_true] at h
    have hdata : (decimalDigitsRev n).reverse.map digitChar = ['0'] := congrArg String.data h
    exact hn (digitList_zero hdata)
  · simp only [hn, if_false, hm, if_false] at h
    exact digitList_cancel (congrArg String.data h)

theorem slugCandidate_injective (base : String) : Function.Injective (slugCandidate base) := by
  intro j k h
  match j, k with
  | 0, 0 => rfl
  | 0, k + 1 =>
      exfalso
      have h' : base = base ++ "-" ++ pyStr (k + 1) := h
      have hlen := congrArg String.length h'
      rw [String.length_append, String.length_append] at hlen
      have hone : ("-" : String).length = 1 := rfl
      omega
  | j + 1, 0 =>
      exfalso
      have h' : base ++ "-" ++ pyStr (j + 1) = base := h
      have hlen := congrArg String.length h'
      rw [String.length_append, String.length_append] at hlen
      have hone : ("-" : String).length = 1 := rfl
      omega
  | j + 1, k + 1 =>
      have h' : base ++ "-" ++ pyStr (j + 1) = base ++ "-" ++ pyStr (k + 1) := h
      have hdata := congrArg String.data h'
      rw [String.data_append, String.data_append, String.data_append, String.data_append] at hdata
      have h3 : (pyStr (j + 1)).data = (pyStr (k + 1)).data :=
        List.append_cancel_left (List.append_cancel_left
          (by rwa [List.append_assoc, List.append_assoc] at hdata))
      have h4 : pyStr (j + 1) = pyStr (k + 1) := by
        exact congrArg String.mk h3
      have := pyStr_injective h4
      omega

/-! ## Totality and soundness of generate_slug -/

theorem exists_free_candidate (rows : List SlugRow) (idEx : Option Nat) (base : String) :
    ∃ k, k ≤ rows.length ∧ slugTaken rows idEx (slugCandidate base k) = false := by
  by_contra hc
  push_neg at hc
  have htaken : ∀ k ∈ Finset.range (rows.length + 1),
      slugCandidate base k ∈ (rows.map SlugRow.slug).toFinset := by
    intro k hk
    have hk' : k ≤ rows.length := Nat.lt_succ_iff.mp (Finset.mem_range.mp hk)
    have h2 : slugTaken rows idEx (slugCandidate base k) = true := by
      cases h : slugTaken rows idEx (slugCandidate base k)
      · exact absurd h (hc k hk')
      · rfl
    rw [slugTaken, List.any_eq_true] at h2
    obtain ⟨r, hr, hrs⟩ := h2
    have hslug : r.slug = slugCandidate base k := by
      have := ((Bool.and_eq_true _ _).mp hrs).1
      exact eq_of_beq this
    rw [List.mem_toFinset, List.mem_map]
    exact ⟨r, hr, hslug⟩
  have hsub : (Finset.range (rows.length + 1)).image (slugCandidate base) ⊆
      (rows.map SlugRow.slug).toFinset := Finset.image_subset_iff.mpr htaken
  have hcard1 : ((Finset.range (rows.length + 1)).image (slugCandidate base)).card =
      rows.length + 1 := by
    rw [Finset.card_image_of_injective _ (slugCandidate_injective base), Finset.card_range]
  have hcard2 := Finset.card_le_card hsub
  have hcard3 : (rows.map SlugRow.slug).toFinset.card ≤ rows.length := by
    have := (rows.map SlugRow.slug).toFinset_card_le
    simpa using this
  omega

theorem generate_slug_loop_spec (rows : List SlugRow) (idEx : Option Nat) (base : String) :
    ∀ (fuel c : Nat),
      (∃ j, c ≤ j ∧ j < c + fuel ∧ slugTaken rows idEx (slugCandidate base j) = false) →
      ∃ k, generate_slug_loop rows idEx base c fuel = some (slugCandidate base k) ∧
        slugTaken rows idEx (slugCandidate base k) = false ∧ c ≤ k ∧
        ∀ i, c ≤ i → i < k → slugTaken rows idEx (slugCandidate base i) = true := by
  intro fuel
  induction fuel with
  | zero =>
      intro c h
      obtain ⟨j, h1, h2, _⟩ := h
      omega
  | succ f ih =>
      intro c h
      obtain ⟨j, hj1, hj2, hj3⟩ := h
      by_cases hc : slugTaken rows idEx (slugCandidate base c) = true
      · have hcj : c ≠ j := by
          intro he
          rw [he, hj3] at hc
          exact Bool.false_ne_true hc
        obtain ⟨k, hk1, hk2, hk3, hk4⟩ := ih (c + 1) ⟨j, by omega, by omega, hj3⟩
        refine ⟨k, ?_, hk2, by omega, ?_⟩
        · rw [generate_slug_loop]
          simp only [hc, if_true]
          exact hk1

        · intro i hi1 hi2
          rcases Nat.eq_or_lt_of_le hi1 with he | hl
          · rw [← he]; exact hc
          · exact hk4 i hl hi2
      · have hc' : slugTaken rows idEx (slugCandidate base c) = false := by
          cases h : slugTaken rows idEx (slugCandidate base c)
          · rfl
          · exact absurd h hc
        refine ⟨c, ?_, hc', le_refl c, fun i hi1 hi2 => absurd (lt_of_le_of_lt hi1 hi2) (lt_irrefl c)⟩
        rw [generate_slug_loop]
        simp [hc']

/-- Soundness and totality of `generate_slug`: it always returns the first
free candidate slug. -/
theorem generate_slug_spec (title : String) (rows : List SlugRow) (idEx : Option Nat) :
    ∃ k, generate_slug title rows idEx = some (slugCandidate (slugify title) k) ∧
      slugTaken rows idEx (slugCandidate (slugify title) k) = false ∧
      ∀ i, i < k → slugTaken rows idEx (slugCandidate (slugify title) i) = true := by
  obtain ⟨j, hj1, hj2⟩ := exists_free_candidate rows idEx (slugify title)
  obtain ⟨k, h1, h2, _, h4⟩ := generate_slug_loop_spec rows idEx (slugify title)
    (rows.length + 1) 0 ⟨j, Nat.zero_le j, by omega, hj2⟩
  exact ⟨k, h1, h2, fun i hi => h4 i (Nat.zero_le i) hi⟩

/-- A free slug is used by no row other than the excluded id. -/
theorem slugTaken_false_no_row (rows : List SlugRow) (idEx : Option Nat) (s : String)
    (h : slugTaken rows idEx s = false) :
    ∀ r ∈ rows, (∀ i, idEx = some i → r.id ≠ i) → r.slug ≠ s := by
  intro r hr hid hslug
  have : ¬ (rows.any (fun r => r.slug == s && excludeFilter idEx r) = true) := by
    rw [slugTaken] at h
    simp [h]
  apply this
  rw [List.any_eq_true]
  refine ⟨r, hr, ?_⟩
  rw [Bool.and_eq_true]
  constructor
  · exact beq_iff_eq.mpr hslug
  · unfold excludeFilter
    cases hEx : idEx with
    | none => simp [pyTruthyOptNat]
    | some i =>
        by_cases hi : i = 0
        · simp [pyTruthyOptNat, hi]
        · have := hid i hEx
          simp [pyTruthyOptNat, hi, Option.getD]
          omega

theorem slugTaken_none_eq_any (designs : List Design) (s : String) :
    slugTaken (designSlugRows designs) none s = designs.any (fun e => e.slug == s) := by
  induction designs with
  | nil => rfl
  | cons d ds ih =>
      simp only [slugTaken, designSlugRows, List.map_cons, List.any_cons,
        excludeFilter, pyTruthyOptNat, Bool.false_eq_true, if_false, Bool.and_true] at ih ⊢
      rw [ih]

/-- C1: for every design-creation request, `generate_slug` returns the first
free candidate slug (the base `slugify title` when free, otherwise the first
`base-k`, `k = 1, 2, ...`, that is free), which is used by no row other than
`id_to_exclude`; and `create_design` stores that slug, so a title whose slug
collides with an existing design is stored successfully under a
disambiguated slug instead of failing the uniqueness constraint. -/
theorem C1_unique_slug_generation :
    (∀ (title : String) (rows : List SlugRow) (id_to_exclude : Option Nat),
      ∃ k, generate_slug title rows id_to_exclude = some (slugCandidate (slugify title) k) ∧
        slugTaken rows id_to_exclude (slugCandidate (slugify title) k) = false ∧
        (∀ i, i < k → slugTaken rows id_to_exclude (slugCandidate (slugify title) i) = true) ∧
        (∀ r ∈ rows, (∀ i, id_to_exclude = some i → r.id ≠ i) →
          r.slug ≠ slugCandidate (slugify title) k)) ∧
    (∀ (data : DesignCreate) (categories : List DesignCategory) (designs : List Design)
        (newId : Nat),
      (∃ c ∈ categories, c.id = data.category_id) →
      ∃ d designs2, create_design data categories designs newId = .ok (d, designs2) ∧
        designs2 = designs ++ [d] ∧
        some d.slug = generate_slug data.title (designSlugRows designs) none ∧
        ∀ e ∈ designs, e.slug ≠ d.slug) := by
  constructor
  · intro title rows id_to_exclude
    obtain ⟨k, h1, h2, h3⟩ := generate_slug_spec title rows id_to_exclude
    exact ⟨k, h1, h2, h3, slugTaken_false_no_row rows id_to_exclude _ h2⟩
  · intro data categories designs newId hcat
    obtain ⟨c, hc, hcid⟩ := hcat
    have hfind : (categories.find? (fun c => c.id == data.category_id)).isNone = false := by
      have hsome : (categories.find? (fun c => c.id == data.category_id)).isSome = true :=
        List.find?_isSome.mpr ⟨c, hc, beq_iff_eq.mpr hcid⟩
      cases hfd : categories.find? (fun c => c.id == data.category_id)
      · rw [hfd] at hsome; simp at hsome
      · rfl
    obtain ⟨k, hgen, hfree, _⟩ := generate_slug_spec data.title (designSlugRows designs) none
    have hany : designs.any (fun e => e.slug == slugCandidate (slugify data.title) k) = false := by
      rw [← slugTaken_none_eq_any]; exact hfree
    refine ⟨⟨newId, data.title, slugCandidate (slugify data.title) k, data.category_id⟩,
      designs ++ [⟨newId, data.title, slugCandidate (slugify data.title) k, data.category_id⟩],
      ?_, rfl, by rw [hgen], ?_⟩
    · rw [create_design]
      simp only [hfind, Bool.false_eq_true, if_false, hgen, insertDesign, hany, bind, pure]
      rfl
    · intro e he heq
      have : designs.any (fun e => e.slug == slugCandidate (slugify data.title) k) = true := by
        rw [List.any_eq_true]
        exact ⟨e, he, beq_iff_eq.mpr heq⟩
      rw [hany] at this
      exact Bool.false_ne_true this

/-- Witness for C1: creating a design titled "Hello" while slug "hello" is
already taken stores the design under slug "hello-1". -/
theorem C1_unique_slug_generation_witness :
    ∃ d designs2,
      create_design ⟨"Hello", "c1"⟩ [⟨"c1"⟩] [⟨1, "Hello", "hello", "c1"⟩] 2 = .ok (d, designs2) ∧
      designs2 = [⟨1, "Hello", "hello", "c1"⟩] ++ [d] ∧
      some d.slug = generate_slug "Hello" (designSlugRows [⟨1, "Hello", "hello", "c1"⟩]) none ∧
      ∀ e ∈ [(⟨1, "Hello", "hello", "c1"⟩ : Design)], e.slug ≠ d.slug :=
  C1_unique_slug_generation.2 ⟨"Hello", "c1"⟩ [⟨"c1"⟩] [⟨1, "Hello", "hello", "c1"⟩] 2
    ⟨⟨"c1"⟩, by decide, rfl⟩

/-! ## C2: inactive users cannot log in -/

/-- C2: for every login request whose email/password pair matches a stored
user whose `is_active` flag is false, `/auth/login` fails with HTTP 403
"Account is deactivated", returns no access token and sets no auth cookie
(the 403 is raised before token creation and cookie setting). -/
theorem C2_inactive_user_cannot_authenticate
    (env : TokenEnv) (vp : String → String → Bool) (now expireMinutes : Nat)
    (db : List User) (email password : String) (u : User)
    (hfind : db.find? (fun v => v.email == pyNormEmail email) = some u)
    (hpw : vp password u.hashed_password = true)
    (hinactive : u.is_active = false) :
    (login env vp now expireMinutes db email password).1 =
      .error (.http ⟨403, "Account is deactivated"⟩) ∧
    ∀ r, (login env vp now expireMinutes db email password).1 ≠ .ok r := by
  have hauth : authenticate_user vp now db email password =
      (some { u with last_login := some now, updated_at := some now },
       updateFirst (fun v => v.email == pyNormEmail email)
         (fun v => { v with last_login := some now, updated_at := some now }) db) := by
    simp only [authenticate_user, hfind, hpw, Bool.not_true, Bool.false_eq_true, if_false]
  have hres : (login env vp now expireMinutes db email password).1 =
      .error (.http ⟨403, "Account is deactivated"⟩) := by
    simp only [login, hauth, hinactive, Bool.not_false, if_true]
  refine ⟨hres, fun r h => ?_⟩
  rw [hres] at h
  exact Except.noConfusion h

/-- Witness for C2: a concrete inactive user is answered with 403. -/
theorem C2_inactive_user_cannot_authenticate_witness :
    (login refreshEnv (fun p h => p == "pw" && h == "hashval") 0 1440
      [⟨1, "a@b.c", "A", "hashval", false, false, none, none⟩] "a@b.c" "pw").1 =
      .error (.http ⟨403, "Account is deactivated"⟩) :=
  (C2_inactive_user_cannot_authenticate refreshEnv (fun p h => p == "pw" && h == "hashval")
    0 1440 [⟨1, "a@b.c", "A", "hashval", false, false, none, none⟩] "a@b.c" "pw"
    ⟨1, "a@b.c", "A", "hashval", false, false, none, none⟩ (by decide) (by decide) rfl).1

/-! ## C9: token resolution (code bug: settings.TOKEN_COOKIE_NAME undefined) -/

/-- C9 (code-bug evaluation): with both token cookies and an Authorization
header present, `get_token_from_cookie_or_header` does not return any of
them: its first statement reads `settings.TOKEN_COOKIE_NAME`, which the
`Settings` class never defines, so the call raises `AttributeError` (and the
request is answered 500), instead of applying the documented cookie-first
precedence. -/
theorem C9_token_resolution_raises_attribute_error :
    get_token_from_cookie_or_header
        ⟨[("auth_token", "Bearer abc"), ("access_token", "Bearer xyz")]⟩ (some "headertok") =
      .error (.attributeError "TOKEN_COOKIE_NAME") ∧
    (get_token_from_cookie_or_header
        ⟨[("auth_token", "Bearer abc"), ("access_token", "Bearer xyz")]⟩ (some "headertok")).isOk =
      false :=
  ⟨rfl, rfl⟩

/-! ## C6: admin gate (code bug: crashes before returning 401) -/

/-- C6 (code-bug evaluation): the dependency chain of an admin endpoint can
never produce a user (so no handler body ever runs), and a request with no
token is answered with the uncaught `AttributeError` on
`settings.TOKEN_COOKIE_NAME` (HTTP 500) instead of the documented 401. -/
theorem C6_admin_gate_crashes_before_401 :
    (∀ (env : TokenEnv) (now : Nat) (s : List (String × SessionData)) (req : Request)
        (credentials : Option String) (db : List User) (u : User),
      resolve_admin_user env now s req credentials db ≠ .ok u) ∧
    resolve_admin_user refreshEnv 0 [] ⟨[]⟩ none [] =
      .error (.py (.attributeError "TOKEN_COOKIE_NAME")) := by
  constructor
  · intro env now s req credentials db u h
    have h0 : resolve_admin_user env now s req credentials db =
        .error (.py (.attributeError "TOKEN_COOKIE_NAME")) := rfl
    rw [h0] at h
    exact Except.noConfusion h
  · rfl

/-! ## C10: unverifiable tokens count as blacklisted -/

/-- C10: `is_token_blacklisted` returns `True` for every token that
`verify_token` rejects, not only explicitly blacklisted ones.  The second
part records the code bug in the claimed consequence: `get_current_user`
answers every request with the uncaught `AttributeError` on
`settings.TOKEN_COOKIE_NAME` (HTTP 500), so an unverifiable token is not in
fact answered with 401 "Token has been revoked". -/
theorem C10_rejected_tokens_are_blacklisted :
    (∀ (env : TokenEnv) (now : Nat) (s : List (String × SessionData)) (token : String),
      verify_token env now token = none → is_token_blacklisted env now s token = true) ∧
    (∀ (env : TokenEnv) (now : Nat) (s : List (String × SessionData)) (req : Request)
        (credentials : Option String) (db : List User),
      get_current_user env now s req credentials db =
        .error (.py (.attributeError "TOKEN_COOKIE_NAME"))) := by
  constructor
  · intro env now s token h
    unfold is_token_blacklisted
    rw [h]
  · intro env now s req credentials db
    rfl

/-- Witness for C10: a token that fails signature verification is reported
as blacklisted. -/
theorem C10_rejected_tokens_are_blacklisted_witness :
    is_token_blacklisted refreshEnv 0 [] "badtok" = true :=
  C10_rejected_tokens_are_blacklisted.1 refreshEnv 0 [] "badtok" rfl

/-! ## C4: blacklist entry lifetime -/

theorem lookup_dictSet (s : List (String × SessionData)) (k k' : String) (v : SessionData) :
    (dictSet s k v).lookup k' = if k' = k then some v else s.lookup k' := by
  induction s with
  | nil =>
      by_cases h : k' = k
      · subst h; simp [dictSet, List.lookup, beq_self_eq_true]
      · simp [dictSet, List.lookup, beq_false_of_ne h, h]
  | cons kv rest ih =>
      obtain ⟨k0, v0⟩ := kv
      by_cases h0 : k0 = k
      · subst h0
        by_cases h : k' = k0
        · subst h; simp [dictSet, List.lookup, beq_self_eq_true]
        · simp [dictSet, List.lookup, beq_false_of_ne h, h]
      · by_cases h : k' = k0
        · subst h
          have hne : ¬ k' = k := fun he => h0 he.symm.symm
          simp [dictSet, h0, List.lookup, beq_self_eq_true, hne]
        · simp [dictSet, h0, List.lookup, beq_false_of_ne h, h, ih]

theorem lookup_filter_keep (f : String × SessionData → Bool)
    (s : List (String × SessionData)) (k : String) (e : SessionData)
    (hl : s.lookup k = some e) (hf : f (k, e) = true) :
    (s.filter f).lookup k = some e := by
  induction s with
  | nil => simp [List.lookup] at hl
  | cons kv rest ih =>
      obtain ⟨k0, v0⟩ := kv
      by_cases h : k = k0
      · subst h
        simp [List.lookup, beq_self_eq_true] at hl
        subst hl
        simp [List.filter, hf, List.lookup, beq_self_eq_true]
      · simp [List.lookup, beq_false_of_ne h] at hl
        cases hf0 : f (k0, v0) <;>
          simp [List.filter, hf0, List.lookup, beq_false_of_ne h, ih hl]

/-- A successful `verify_token` returns exactly the decoded claims, so the
payload does not depend on the time of the call. -/
theorem verify_token_eq_decodeRaw (env : TokenEnv) (n : Nat) (token : String) (p : Payload)
    (h : verify_token env n token = some p) : env.decodeRaw token = some p := by
  unfold verify_token jwtDecode at h
  cases hd : env.decodeRaw token with
  | none => rw [hd] at h; simp at h
  | some q =>
      rw [hd] at h
      by_cases c1 : pyTruthyOptNat q.exp = true ∧ q.exp.getD 0 < n
      · simp [c1] at h
      · simp only [c1, if_false, if_neg c1] at h
        split at h
        · exact absurd h (by simp)
        · exact h

/-- The invariant "key `k` is blacklisted with a timestamp at least `t0`"
survives any sequence of session operations whose blacklisting happens at
time at least `t0` and whose cleanups run within 7 days of `t0`. -/
theorem sessions_inv_preserved (env : TokenEnv) (t0 : Nat) (ops : List SessionOp) :
    ∀ (s : List (String × SessionData)) (k : String),
      (∀ op ∈ ops, t0 ≤ op.time) →
      (∀ op ∈ ops, op.isCleanup = true → op.time ≤ t0 + 604800) →
      (∃ e, s.lookup k = some e ∧ e.blacklisted = true ∧ t0 ≤ e.timestamp) →
      ∃ e, (applySessionOps env s ops).lookup k = some e ∧
        e.blacklisted = true ∧ t0 ≤ e.timestamp := by
  induction ops with
  | nil => intro s k _ _ h; exact h
  | cons op rest ih =>
      intro s k htime hclean h
      have hstep : ∃ e, (applySessionOp env s op).lookup k = some e ∧
          e.blacklisted = true ∧ t0 ≤ e.timestamp := by
        match op with
        | .cleanupOp t =>
            obtain ⟨e, h1, h2, h3⟩ := h
            have ht : t ≤ t0 + 604800 := by
              have := hclean (.cleanupOp t) (by simp) rfl
              simpa [SessionOp.time] using this
            refine ⟨e, ?_, h2, h3⟩
            apply lookup_filter_keep _ _ _ _ h1
            simp only [Bool.not_eq_true']
            simp only [decide_eq_false_iff_not]
            omega
        | .blacklistOp t tok r =>
            obtain ⟨e, h1, h2, h3⟩ := h
            have htt : t0 ≤ t := by
              have := htime (.blacklistOp t tok r) (by simp)
              simpa [SessionOp.time] using this
            show ∃ e, (blacklist_token env t tok r s).lookup k = some e ∧ _
            unfold blacklist_token
            cases hv : verify_token env t tok with
            | none => exact ⟨e, h1, h2, h3⟩
            | some p =>
                rw [lookup_dictSet]
                by_cases hk : k = blacklistKey tok p
                · exact ⟨⟨true, r, t⟩, by simp [hk], rfl, htt⟩
                · exact ⟨e, by simp [hk, h1], h2, h3⟩
      exact ih (applySessionOp env s op) k
        (fun o ho => htime o (by simp [ho]))
        (fun o ho => hclean o (by simp [ho])) hstep

set_option maxRecDepth 8192 in
/-- Counterexample to C4 as stated: blacklist a valid refresh token
(30-day expiry, as issued by `create_refresh_token`), run
`cleanup_expired_sessions` 8 days later — `is_token_blacklisted` then
returns `False` although `verify_token` still accepts the token; and
`get_current_user` never answers 401 "Token has been revoked" because token
resolution raises `AttributeError` first. -/
theorem C4_blacklist_not_permanent_counterexample :
    verify_token refreshEnv 0 "refreshtok" ≠ none ∧
    is_token_blacklisted refreshEnv 0
      (blacklist_token refreshEnv 0 "refreshtok" "logout" []) "refreshtok" = true ∧
    verify_token refreshEnv 691200 "refreshtok" ≠ none ∧
    is_token_blacklisted refreshEnv 691200
      (cleanup_expired_sessions 691200
        (blacklist_token refreshEnv 0 "refreshtok" "logout" [])) "refreshtok" = false ∧
    get_current_user refreshEnv 691200 [] ⟨[("auth_token", "Bearer refreshtok")]⟩ none [] ≠
      .error (.http ⟨401, "Token has been revoked"⟩) := by
  decide

/-- C4 (amended): once `blacklist_token(t)` is called for a token that
`verify_token` accepts, then as long as every subsequent
`cleanup_expired_sessions` call runs within 7 days of the blacklisting (and
later operations do not predate it), every subsequent
`is_token_blacklisted(t)` returns `True`; `blacklist_token` never removes a
blacklist entry and `cleanup_expired_sessions` keeps every entry at most 7
days old; and `get_current_user` cannot answer 401 "Token has been revoked"
because token resolution raises `AttributeError` on the undefined
`settings.TOKEN_COOKIE_NAME` (surfacing as HTTP 500). -/
theorem C4_blacklist_persists_within_entry_lifetime
    (env : TokenEnv) (t0 : Nat) (token reason : String)
    (s : List (String × SessionData)) (ops : List SessionOp)
    (hver : verify_token env t0 token ≠ none)
    (htime : ∀ op ∈ ops, t0 ≤ op.time)
    (hclean : ∀ op ∈ ops, op.isCleanup = true → op.time ≤ t0 + 604800) :
    (∀ nowq, is_token_blacklisted env nowq
        (applySessionOps env (blacklist_token env t0 token reason s) ops) token = true) ∧
    (∀ (now2 : Nat) (tok2 reason2 : String) (s2 : List (String × SessionData))
        (k : String) (e : SessionData),
      s2.lookup k = some e → e.blacklisted = true →
      ∃ e2, (blacklist_token env now2 tok2 reason2 s2).lookup k = some e2 ∧
        e2.blacklisted = true) ∧
    (∀ (now2 : Nat) (s2 : List (String × SessionData)) (k : String) (e : SessionData),
      s2.lookup k = some e → now2 - e.timestamp ≤ 604800 →
      (cleanup_expired_sessions now2 s2).lookup k = some e) ∧
    (∀ (now2 : Nat) (s2 : List (String × SessionData)) (req : Request)
        (credentials : Option String) (db : List User),
      get_current_user env now2 s2 req credentials db =
        .error (.py (.attributeError "TOKEN_COOKIE_NAME"))) := by
  refine ⟨?_, ?_, ?_, fun _ _ _ _ _ => rfl⟩
  · intro nowq
    cases hv : verify_token env t0 token with
    | none => exact absurd hv hver
    | some p =>
        have hstart : ∃ e, (blacklist_token env t0 token reason s).lookup
            (blacklistKey token p) = some e ∧ e.blacklisted = true ∧ t0 ≤ e.timestamp := by
          refine ⟨⟨true, reason, t0⟩, ?_, rfl, le_refl t0⟩
          unfold blacklist_token
          rw [hv]
          show (dictSet s (blacklistKey token p) ⟨true, reason, t0⟩).lookup
            (blacklistKey token p) = some ⟨true, reason, t0⟩
          rw [lookup_dictSet]
          simp
        obtain ⟨e, he1, he2, _⟩ :=
          sessions_inv_preserved env t0 ops _ (blacklistKey token p) htime hclean hstart
        cases hv2 : verify_token env nowq token with
        | none =>
            unfold is_token_blacklisted
            rw [hv2]
        | some p2 =>
            have hp : p2 = p := by
              have d1 := verify_token_eq_decodeRaw env t0 token p hv
              have d2 := verify_token_eq_decodeRaw env nowq token p2 hv2
              rw [d1] at d2
              injection d2 with hqq
              exact hqq.symm
            unfold is_token_blacklisted
            rw [hv2, hp]
            show (match (applySessionOps env (blacklist_token env t0 token reason s)
                ops).lookup (blacklistKey token p) with
              | some sd => sd.blacklisted
              | none => false) = true
            rw [he1]
            exact he2
  · intro now2 tok2 reason2 s2 k e h1 h2
    unfold blacklist_token
    cases hv : verify_token env now2 tok2 with
    | none => exact ⟨e, h1, h2⟩
    | some p =>
        show ∃ e2, (dictSet s2 (blacklistKey tok2 p) ⟨true, reason2, now2⟩).lookup k =
          some e2 ∧ e2.blacklisted = true
        rw [lookup_dictSet]
        by_cases hk : k = blacklistKey tok2 p
        · exact ⟨⟨true, reason2, now2⟩, by simp [hk], rfl⟩
        · exact ⟨e, by simp [hk, h1], h2⟩
  · intro now2 s2 k e h1 h2
    apply lookup_filter_keep _ _ _ _ h1
    simp only [Bool.not_eq_true']
    simp only [decide_eq_false_iff_not]
    omega

/-- Witness for the amended C4: after blacklisting the refresh token at
time 0 and a cleanup 6.9 days later (within the 7-day window), the token is
still reported blacklisted much later. -/
theorem C4_blacklist_persists_within_entry_lifetime_witness :
    is_token_blacklisted refreshEnv 800000
      (applySessionOps refreshEnv
        (blacklist_token refreshEnv 0 "refreshtok" "logout" [])
        [SessionOp.cleanupOp 600000]) "refreshtok" = true :=
  (C4_blacklist_persists_within_entry_lifetime refreshEnv 0 "refreshtok" "logout" []
    [SessionOp.cleanupOp 600000] (by decide) (by decide) (by decide)).1 800000

/-! ## C3: error handler statuses -/

/-- C3: every error is a status code with a JSON body — validation errors
map to 422, framework not-found to 404, raised `HTTPException`s keep their
status (and the authentication failures raised by the login flow and the
admin gate carry 401/403), and exceptions not translated into
`HTTPException` map to 500. -/
theorem C3_error_handler_statuses :
    (∀ d, (handle_exception (.validationError d)).status_code = 422) ∧
    (∀ d, (handle_exception (.starletteHttp 404 d)).status_code = 404) ∧
    (∀ (status : Nat) (d : String), (handle_exception (.httpExc status d)).status_code = status) ∧
    (∀ m, (handle_exception (.uncaught m)).status_code = 500) ∧
    (∀ (env : TokenEnv) (vp : String → String → Bool) (now em : Nat) (db : List User)
        (email password : String) (e : HttpError),
      (login env vp now em db email password).1 = .error (.http e) →
      e = ⟨401, "Incorrect email or password"⟩ ∨ e = ⟨403, "Account is deactivated"⟩) ∧
    (∀ (u : User) (e : ApiError), get_current_admin_user u = .error e →
      e = .http ⟨403, "Administrator access required"⟩) := by
  refine ⟨fun d => rfl, fun d => rfl, fun s d => rfl, fun m => rfl, ?_, ?_⟩
  · intro env vp now em db email password e h
    unfold login at h
    split at h
    · simp at h
      exact Or.inl h.symm
    · split at h
      · simp at h
        exact Or.inr h.symm
      · simp only [set_auth_cookie, settingsTokenCookieName] at h
        simp at h
  · intro u e h
    unfold get_current_admin_user at h
    split at h
    · simp at h
      exact h.symm
    · exact Except.noConfusion h

/-- Witness for C3: concrete handler outputs and a concrete failed login. -/
theorem C3_error_handler_statuses_witness :
    (handle_exception (.validationError ["body invalid"])).status_code = 422 ∧
    (handle_exception (.starletteHttp 404 "missing")).status_code = 404 ∧
    (handle_exception (.httpExc 403 "Administrator access required")).status_code = 403 ∧
    (handle_exception (.uncaught "boom")).status_code = 500 ∧
    ((⟨401, "Incorrect email or password"⟩ : HttpError) =
        ⟨401, "Incorrect email or password"⟩ ∨
      (⟨401, "Incorrect email or password"⟩ : HttpError) = ⟨403, "Account is deactivated"⟩) :=
  ⟨C3_error_handler_statuses.1 ["body invalid"],
   C3_error_handler_statuses.2.1 "missing",
   C3_error_handler_statuses.2.2.1 403 "Administrator access required",
   C3_error_handler_statuses.2.2.2.1 "boom",
   C3_error_handler_statuses.2.2.2.2.1 refreshEnv (fun _ _ => false) 0 1440 [] "x@y.z" "pw"
     ⟨401, "Incorrect email or password"⟩ (by decide)⟩

/-! ## C7: upload size check and hashing -/

/-- C7: an upload whose content exceeds `MAX_FILE_SIZE` is rejected with
HTTP 413 before anything is written to disk (no file, no thumbnail), and
every accepted upload's `hash` field is the SHA-256 hex digest of the
content. -/
theorem C7_upload_size_check_and_hash :
    (∀ (env : UploadEnv) (maxFileSize : Nat) (uploadDir : String) (file : UploadFile)
        (folder : Option String),
      file.content.length > maxFileSize →
      save_uploaded_file env maxFileSize uploadDir file folder =
        (.error ⟨413, "File size " ++ pyStr file.content.length ++
          " exceeds maximum allowed size " ++ pyStr maxFileSize⟩, [])) ∧
    (∀ (env : UploadEnv) (maxFileSize : Nat) (uploadDir : String) (file : UploadFile)
        (folder : Option String) (r : UploadResult) (effects : List FsEffect),
      save_uploaded_file env maxFileSize uploadDir file folder = (.ok r, effects) →
      r.hash = env.sha256hex file.content) := by
  constructor
  · intro env maxFileSize uploadDir file folder h
    unfold save_uploaded_file
    simp only [h, if_true, if_pos h]
  · intro env maxFileSize uploadDir file folder r effects h
    unfold save_uploaded_file at h
    by_cases hsz : maxFileSize < file.content.length
    · rw [if_pos hsz] at h
      simp at h
    · rw [if_neg hsz] at h
      by_cases hsafe : (!is_file_safe file.content (file.filename.getD "")) = true
      · rw [if_pos hsafe] at h
        simp at h
      · rw [if_neg hsafe] at h
        rw [Prod.mk.injEq] at h
        obtain ⟨h1, _⟩ := h
        injection h1 with h2
        rw [← h2]
        rfl

/-- Witness for C7: a 3-byte file against a 2-byte limit is rejected with
413 and no filesystem effect. -/
theorem C7_upload_size_check_and_hash_witness :
    save_uploaded_file
      ⟨fun c => "digest" ++ pyStr c.length, fun _ => none, 5, "ab12cd34",
       fun _ => none, fun _ => none⟩ 2 "uploads" ⟨some "a.txt", [1, 2, 3]⟩ none =
      (.error ⟨413, "File size " ++ pyStr 3 ++ " exceeds maximum allowed size " ++ pyStr 2⟩,
       []) :=
  C7_upload_size_check_and_hash.1
    ⟨fun c => "digest" ++ pyStr c.length, fun _ => none, 5, "ab12cd34",
     fun _ => none, fun _ => none⟩ 2 "uploads" ⟨some "a.txt", [1, 2, 3]⟩ none (by decide)

/-! ## C8: the last active admin is protected -/

theorem mem_updateFirst_of_pred_false {α : Type} (p : α → Bool) (f : α → α) (l : List α)
    (x : α) (hx : x ∈ l) (hp : p x = false) : x ∈ updateFirst p f l := by
  induction l with
  | nil => cases hx
  | cons a rest ih =>
      rcases List.mem_cons.mp hx with h | h
      · subst h
        simp [updateFirst, hp]
      · by_cases hpa : p a = true
        · simp only [updateFirst, hpa, if_true]
          exact List.mem_cons_of_mem _ h
        · have hfa : p a = false := by
            cases hq : p a
            · rfl
            · exact absurd hq hpa
          simp only [updateFirst, hfa, Bool.false_eq_true, if_false]
          exact List.mem_cons_of_mem _ (ih h)

theorem updateFirst_map_id (p : User → Bool) (f : User → User) (l : List User)
    (hf : ∀ x, (f x).id = x.id) : (updateFirst p f l).map User.id = l.map User.id := by
  induction l with
  | nil => rfl
  | cons a rest ih =>
      by_cases hpa : p a = true
      · simp [updateFirst, hpa, hf a]
      · have hfa : p a = false := by
          cases hq : p a
          · rfl
          · exact absurd hq hpa
        simp [updateFirst, hfa, ih]

theorem exists_other_admin (db : List User) (uid : Nat)
    (h : countOtherActiveAdmins db uid ≠ 0) :
    ∃ r ∈ db, r.is_admin = true ∧ r.is_active = true ∧ (r.id == uid) = false := by
  unfold countOtherActiveAdmins at h
  have hne : (db.filter fun u => u.is_admin && u.is_active && u.id != uid) ≠ [] := by
    intro he
    rw [he] at h
    exact h rfl
  obtain ⟨r, hr⟩ := List.exists_mem_of_ne_nil _ hne
  obtain ⟨hmem, hcond⟩ := List.mem_filter.mp hr
  rw [Bool.and_eq_true, Bool.and_eq_true] at hcond
  refine ⟨r, hmem, hcond.1.1, hcond.1.2, ?_⟩
  have := hcond.2
  simp [bne] at this
  simp [this]

/-- One admin-safety operation keeps the user ids unchanged and preserves
the existence of an active admin. -/
theorem admin_step_preserves (now : Nat) (db : List User) (op : AdminOp)
    (hnodup : (db.map User.id).Nodup)
    (hinv : ∃ u ∈ db, u.is_admin = true ∧ u.is_active = true) :
    (applyAdminOp now db op).map User.id = db.map User.id ∧
    ∃ u ∈ applyAdminOp now db op, u.is_admin = true ∧ u.is_active = true := by
  match op with
  | .deactOp uid =>
      show (deactivate_user now db uid).2.map User.id = db.map User.id ∧
        ∃ u ∈ (deactivate_user now db uid).2, u.is_admin = true ∧ u.is_active = true
      unfold deactivate_user
      cases hf : db.find? (fun u => u.id == uid) with
      | none => exact ⟨rfl, hinv⟩
      | some u0 =>
          have hu0id : (u0.id == uid) = true := by
            have := List.find?_some hf
            simpa using this
          have hu0mem : u0 ∈ db := List.mem_of_find?_eq_some hf
          by_cases hadm : u0.is_admin = true
          · by_cases hcnt : countOtherActiveAdmins db uid = 0
            · simp only [hadm, if_true, hcnt]
              exact ⟨by simp, hinv⟩
            · simp only [hadm, if_true, hcnt, if_false]
              obtain ⟨r, hrmem, hra, hrv, hrid⟩ := exists_other_admin db uid hcnt
              refine ⟨updateFirst_map_id _ _ _ (fun x => rfl), r, ?_, hra, hrv⟩
              exact mem_updateFirst_of_pred_false _ _ _ r hrmem hrid
          · have hadm' : u0.is_admin = false := by
              cases hq : u0.is_admin
              · rfl
              · exact absurd hq hadm
            simp only [hadm', Bool.false_eq_true, if_false]
            obtain ⟨w, hwmem, hwa, hwv⟩ := hinv
            have hwid : (w.id == uid) = false := by
              cases hq : w.id == uid
              · rfl
              · exfalso
                have hweq : w.id = u0.id := by
                  have h1 : w.id = uid := by simpa using hq
                  have h2 : u0.id = uid := by simpa using hu0id
                  rw [h1, h2]
                have := List.inj_on_of_nodup_map hnodup hwmem hu0mem hweq
                rw [this, hadm'] at hwa
                exact Bool.false_ne_true hwa
            refine ⟨updateFirst_map_id _ _ _ (fun x => rfl), w, ?_, hwa, hwv⟩
            exact mem_updateFirst_of_pred_false _ _ _ w hwmem hwid
  | .removeAdminOp uid =>
      show (remove_admin now db uid).2.map User.id = db.map User.id ∧
        ∃ u ∈ (remove_admin now db uid).2, u.is_admin = true ∧ u.is_active = true
      unfold remove_admin
      cases hf : db.find? (fun u => u.id == uid) with
      | none => exact ⟨rfl, hinv⟩
      | some u0 =>
          by_cases hcnt : countOtherActiveAdmins db uid = 0
          · simp only [hcnt, if_true]
            exact ⟨by simp, hinv⟩
          · simp only [hcnt, if_false]
            obtain ⟨r, hrmem, hra, hrv, hrid⟩ := exists_other_admin db uid hcnt
            refine ⟨updateFirst_map_id _ _ _ (fun x => rfl), r, ?_, hra, hrv⟩
            exact mem_updateFirst_of_pred_false _ _ _ r hrmem hrid

/-- C8: when the target user is the only active admin, `deactivate_user`
and `remove_admin` both fail with HTTP 400 and leave every user row
unchanged; consequently (over tables with distinct ids) no sequence of
these operations can leave the system without an active admin. -/
theorem C8_last_active_admin_preserved :
    (∀ (now : Nat) (db : List User) (uid : Nat) (u : User),
      db.find? (fun v => v.id == uid) = some u →
      u.is_admin = true → u.is_active = true →
      countOtherActiveAdmins db uid = 0 →
      deactivate_user now db uid =
        (.error ⟨400, "Cannot deactivate the last active admin"⟩, db) ∧
      remove_admin now db uid =
        (.error ⟨400, "Cannot remove admin rights from the last active admin"⟩, db)) ∧
    (∀ (now : Nat) (db : List User) (ops : List AdminOp),
      (db.map User.id).Nodup →
      (∃ u ∈ db, u.is_admin = true ∧ u.is_active = true) →
      ∃ u ∈ applyAdminOps now db ops, u.is_admin = true ∧ u.is_active = true) := by
  constructor
  · intro now db uid u hfind hadm hact hcnt
    constructor
    · unfold deactivate_user
      rw [hfind]
      simp only [hadm, if_true, hcnt]
    · unfold remove_admin
      rw [hfind]
      simp only [hcnt, if_true]
  · intro now db ops
    induction ops generalizing db with
    | nil => intro _ h; exact h
    | cons op rest ih =>
        intro hnodup hinv
        obtain ⟨hid, hstep⟩ := admin_step_preserves now db op hnodup hinv
        have hnodup2 : ((applyAdminOp now db op).map User.id).Nodup := by
          rw [hid]; exact hnodup
        exact ih (applyAdminOp now db op) hnodup2 hstep

/-- Witness for C8: deactivating or demoting the sole active admin is
refused with 400 and the table is untouched; a deactivation sequence on a
two-admin table still leaves an active admin. -/
theorem C8_last_active_admin_preserved_witness :
    (deactivate_user 0 [⟨1, "a@b", "A", "h", true, true, none, none⟩] 1 =
      (.error ⟨400, "Cannot deactivate the last active admin"⟩,
       [⟨1, "a@b", "A", "h", true, true, none, none⟩]) ∧
     remove_admin 0 [⟨1, "a@b", "A", "h", true, true, none, none⟩] 1 =
      (.error ⟨400, "Cannot remove admin rights from the last active admin"⟩,
       [⟨1, "a@b", "A", "h", true, true, none, none⟩])) ∧
    ∃ u ∈ applyAdminOps 0
        [⟨1, "a@b", "A", "h", true, true, none, none⟩,
         ⟨2, "c@d", "C", "h", true, true, none, none⟩]
        [AdminOp.deactOp 1, AdminOp.removeAdminOp 2],
      u.is_admin = true ∧ u.is_active = true :=
  ⟨C8_last_active_admin_preserved.1 0 [⟨1, "a@b", "A", "h", true, true, none, none⟩] 1
     ⟨1, "a@b", "A", "h", true, true, none, none⟩ (by decide) rfl rfl (by decide),
   C8_last_active_admin_preserved.2 0
     [⟨1, "a@b", "A", "h", true, true, none, none⟩,
      ⟨2, "c@d", "C", "h", true, true, none, none⟩]
     [AdminOp.deactOp 1, AdminOp.removeAdminOp 2] (by decide)
     ⟨⟨1, "a@b", "A", "h", true, true, none, none⟩, by decide, rfl, rfl⟩⟩

/-! ## C5: migration idempotence -/

theorem isInfixB_of_prefix {α : Type} [BEq α] [LawfulBEq α] (pat l : List α)
    (h : pat <+: l) : isInfixB pat l = true := by
  cases l with
  | nil =>
      have hp : pat = [] := List.prefix_nil.mp h
      simp [isInfixB, hp]
  | cons a rest =>
      unfold isInfixB
      rw [Bool.or_eq_true]
      left
      exact List.isPrefixOf_iff_prefix.mpr h

theorem isInfixB_append_left {α : Type} [BEq α] (a b pat : List α)
    (h : isInfixB pat b = true) : isInfixB pat (a ++ b) = true := by
  induction a with
  | nil => simpa using h
  | cons x xs ih =>
      show isInfixB pat (x :: (xs ++ b)) = true
      unfold isInfixB
      rw [Bool.or_eq_true]
      right
      exact ih

theorem strContains_dup_column (c : String) :
    duplicatePhrases.any
      (fun p => strContains (pyLowerStr ("duplicate column name " ++ c)) p) = true := by
  rw [List.any_eq_true]
  refine ⟨"duplicate column", by simp [duplicatePhrases], ?_⟩
  unfold strContains pyLowerStr
  show isInfixB ("duplicate column").data
    (List.map pyLower ("duplicate column name " ++ c).data) = true
  rw [String.data_append, List.map_append]
  apply isInfixB_of_prefix
  have h1 : List.map pyLower ("duplicate column name ").data =
      ("duplicate column name ").data := by decide
  rw [h1]
  have h2 : ("duplicate column").data <+: ("duplicate column name ").data := by decide
  exact h2.trans (List.prefix_append _ _)

theorem strContains_already_exists (t : String) :
    duplicatePhrases.any
      (fun p => strContains (pyLowerStr ("table " ++ t ++ " already exists")) p) = true := by
  rw [List.any_eq_true]
  refine ⟨"already exists", by simp [duplicatePhrases], ?_⟩
  unfold strContains pyLowerStr
  show isInfixB ("already exists").data
    (List.map pyLower (("table " ++ t) ++ " already exists").data) = true
  rw [String.data_append, List.map_append]
  apply isInfixB_append_left
  have h1 : List.map pyLower (" already exists").data = (" already exists").data := by decide
  rw [h1]
  decide

theorem strContains_dup_key (i : String) :
    duplicatePhrases.any
      (fun p => strContains (pyLowerStr ("duplicate key name " ++ i)) p) = true := by
  rw [List.any_eq_true]
  refine ⟨"duplicate key", by simp [duplicatePhrases], ?_⟩
  unfold strContains pyLowerStr
  show isInfixB ("duplicate key").data
    (List.map pyLower ("duplicate key name " ++ i).data) = true
  rw [String.data_append, List.map_append]
  apply isInfixB_of_prefix
  have h1 : List.map pyLower ("duplicate key name ").data =
      ("duplicate key name ").data := by decide
  rw [h1]
  have h2 : ("duplicate key").data <+: ("duplicate key name ").data := by decide
  exact h2.trans (List.prefix_append _ _)

theorem tableExists_of_columnExists (sch : Schema) (t c : String)
    (h : columnExistsB sch t c = true) : tableExistsB sch t = true := by
  unfold columnExistsB at h
  unfold tableExistsB
  rw [List.any_eq_true] at h ⊢
  obtain ⟨tb, htb, hc⟩ := h
  rw [Bool.and_eq_true] at hc
  exact ⟨tb, htb, hc.1⟩

theorem tableExists_of_indexExists (sch : Schema) (t i : String)
    (h : indexExistsB sch t i = true) : tableExistsB sch t = true := by
  unfold indexExistsB at h
  unfold tableExistsB
  rw [List.any_eq_true] at h ⊢
  obtain ⟨tb, htb, hc⟩ := h
  rw [Bool.and_eq_true] at hc
  exact ⟨tb, htb, hc.1⟩

/-- Re-adding an existing column: the MySQL duplicate-column error is
swallowed by `execute_sql` and the schema is unchanged. -/
theorem execute_sql_dup_column (sch : Schema) (t c : String)
    (h : columnExistsB sch t c = true) :
    execute_sql sch (.addColumn t c) = (true, sch) := by
  have ha : applySql sch (SqlOp.addColumn t c) = .error ("duplicate column name " ++ c) := by
    simp only [applySql]
    rw [tableExists_of_columnExists sch t c h, h]
    simp
  unfold execute_sql
  rw [ha]
  simp [strContains_dup_column c]

/-- Re-creating an existing table counts as success, schema unchanged. -/
theorem execute_sql_dup_table (sch : Schema) (t : String) (cols idxs : List String)
    (h : tableExistsB sch t = true) :
    execute_sql sch (.createTable t cols idxs) = (true, sch) := by
  have ha : applySql sch (SqlOp.createTable t cols idxs) =
      .error ("table " ++ t ++ " already exists") := by
    simp only [applySql]
    rw [h]
    simp
  unfold execute_sql
  rw [ha]
  simp [strContains_already_exists t]

/-- Re-creating an existing index counts as success, schema unchanged. -/
theorem execute_sql_dup_index (sch : Schema) (t i : String)
    (h : indexExistsB sch t i = true) :
    execute_sql sch (.createIndex t i) = (true, sch) := by
  have ha : applySql sch (SqlOp.createIndex t i) = .error ("duplicate key name " ++ i) := by
    simp only [applySql]
    rw [tableExists_of_indexExists sch t i h, h]
    simp
  unfold execute_sql
  rw [ha]
  simp [strContains_dup_key i]

set_option maxRecDepth 8192 in
/-- Counterexample to C5 as stated: migration 027 executes its INSERT
IGNORE statements (and 018 its SET GLOBAL statements) even on a fully
migrated schema whose target rows all exist, so not every
`migration_NNN` method "returns True without executing SQL when the target
object already exists". -/
theorem C5_migration_not_all_guarded_counterexample :
    (migration_027_add_backup_settings migratedState0).1 = true ∧
    (migration_027_add_backup_settings migratedState0).2.sqlLog ≠ [] ∧
    backupSettingKeys.all (fun k => migratedSchema.settingKeys.contains k) = true ∧
    (migration_018_optimize_database_settings migratedState0).2.sqlLog ≠ [] := by
  decide

set_option maxRecDepth 8192 in
/-- C5 (amended): the schema-altering migrations (all except 018, 027, 030)
return True without executing SQL on an already-migrated schema; 018, 027
and 030 run unconditional but idempotent statements; `execute_sql` treats
duplicate-column / already-exists / duplicate-key errors as success with
the schema unchanged; and a second `run_all_migrations` — whether skipped
via the recorded `schema_migrations` versions or replayed in full —
succeeds and leaves the schema unchanged. -/
theorem C5_migrations_idempotent :
    (guardedVersions.all (fun v =>
      (runMigrationMethod v migratedState0).1 &&
      decide ((runMigrationMethod v migratedState0).2.schema = migratedSchema) &&
      decide ((runMigrationMethod v migratedState0).2.sqlLog = [])) = true) ∧
    (∀ (sch : Schema) (t c : String), columnExistsB sch t c = true →
      execute_sql sch (.addColumn t c) = (true, sch)) ∧
    (∀ (sch : Schema) (t : String) (cols idxs : List String), tableExistsB sch t = true →
      execute_sql sch (.createTable t cols idxs) = (true, sch)) ∧
    (∀ (sch : Schema) (t i : String), indexExistsB sch t i = true →
      execute_sql sch (.createIndex t i) = (true, sch)) ∧
    run_all_migrations firstRunResult.2 none = (true, firstRunResult.2) ∧
    firstRunResult.1 = true ∧
    (run_all_migrations migratedState0 none).1 = true ∧
    (run_all_migrations migratedState0 none).2.schema = migratedSchema :=
  ⟨by decide, execute_sql_dup_column, execute_sql_dup_table, execute_sql_dup_index,
   by decide, by decide, by decide, by decide⟩

set_option maxRecDepth 8192 in
/-- Witness for C5: re-adding the `slug` column to the migrated `designs`
table is reported as success and changes nothing. -/
theorem C5_migrations_idempotent_witness :
    execute_sql migratedSchema (SqlOp.addColumn "designs" "slug") = (true, migratedSchema) :=
  C5_migrations_idempotent.2.1 migratedSchema "designs" "slug" (by decide)

end LaunchByte
